import Mathlib

/-!
Verification development for the NES emulator core (`src/core.rs`, `src/opcodes.rs`,
`src/ppu_registers.rs`, `src/render.rs`).  Machine integers are modelled as `Nat`
with explicit `% 256` / `% 65536` wherever the Rust code wraps.
-/

namespace Nes

/-- Status register flags (source: `opcodes.rs`, `bitflags CpuFlags: u8`).
The eight named bits of the `u8` bitfield are modelled as a record of `Bool`s;
`brk` is `BREAK` (bit 4) and `brk2` is `BREAK2` (bit 5). -/
structure CpuFlags where
  carry : Bool
  zero : Bool
  interrupt_disable : Bool
  decimal_mode : Bool
  brk : Bool
  brk2 : Bool
  overflow : Bool
  negative : Bool
  deriving DecidableEq

/-- The `u8` value of the flag register, as produced by `bits()`. -/
def CpuFlags.bits (f : CpuFlags) : Nat :=
  (cond f.carry 1 0) + (cond f.zero 2 0) + (cond f.interrupt_disable 4 0) +
  (cond f.decimal_mode 8 0) + (cond f.brk 16 0) + (cond f.brk2 32 0) +
  (cond f.overflow 64 0) + (cond f.negative 128 0)

/-- Rebuild the flag record from a byte.  `CpuFlags::from_bits(u8)` never fails,
because all eight bits of the `u8` are named flags; this models the successful case. -/
def CpuFlags.ofBits (n : Nat) : CpuFlags :=
  ⟨n.testBit 0, n.testBit 1, n.testBit 2, n.testBit 3,
   n.testBit 4, n.testBit 5, n.testBit 6, n.testBit 7⟩

/-- `CpuFlags::from_bits_truncate` on a value, keeping only the low 8 bits. -/
def CpuFlags.from_bits_truncate (n : Nat) : CpuFlags := CpuFlags.ofBits (n % 256)

/-- Modelled from the spec: `src/bus.rs` is not among the provided sources.  Per spec
section 4.2 the bus is a total byte store over the 16-bit address space together with a
pending-NMI signal that the CPU is supposed to poll.  RAM/PPU mirroring and PPU register
side effects are not exercised by any claim and are not modelled. -/
structure Bus where
  mem : Nat → Nat
  nmi_pending : Bool

/-- `mem_read`: one byte from the bus. -/
def Bus.mem_read (b : Bus) (addr : Nat) : Nat := b.mem (addr % 65536) % 256

/-- `mem_write`: store one byte. -/
def Bus.mem_write (b : Bus) (addr data : Nat) : Bus :=
  { b with mem := fun a => if a = addr % 65536 then data % 256 else b.mem a }

/-- `mem_read_u16`: little-endian 16-bit read (`(hi << 8) | lo`). -/
def Bus.mem_read_u16 (b : Bus) (pos : Nat) : Nat :=
  let lo := b.mem_read pos
  let hi := b.mem_read (pos + 1)
  hi * 256 + lo

/-- `mem_write_u16`: little-endian 16-bit write. -/
def Bus.mem_write_u16 (b : Bus) (pos data : Nat) : Bus :=
  let hi := data / 256 % 256
  let lo := data % 256
  (b.mem_write pos lo).mem_write (pos + 1) hi

def STACK : Nat := 0x0100
def STACK_RESET : Nat := 0xfd

/-- CPU state (source: `core.rs`, `struct Cpu`). -/
structure Cpu where
  register_a : Nat
  register_x : Nat
  register_y : Nat
  status : CpuFlags
  program_counter : Nat
  stack_pointer : Nat
  bus : Bus

/-- Addressing modes (source: `opcodes.rs`, `enum AddressingMode`). -/
inductive AddressingMode
  | Immediate
  | ZeroPage
  | ZeroPage_X
  | ZeroPage_Y
  | Absolute
  | Absolute_X
  | Absolute_Y
  | Indirect_X
  | Indirect_Y
  | NoneAddressing
  deriving DecidableEq

/-- `get_operand_address`; `NoneAddressing` panics in the source, modelled as `none`. -/
def Cpu.get_operand_address (c : Cpu) (mode : AddressingMode) : Option Nat :=
  match mode with
  | .Immediate => some c.program_counter
  | .ZeroPage => some (c.bus.mem_read c.program_counter)
  | .Absolute => some (c.bus.mem_read_u16 c.program_counter)
  | .ZeroPage_X => some ((c.bus.mem_read c.program_counter + c.register_x) % 256)
  | .ZeroPage_Y => some ((c.bus.mem_read c.program_counter + c.register_y) % 256)
  | .Absolute_X => some ((c.bus.mem_read_u16 c.program_counter + c.register_x) % 65536)
  | .Absolute_Y => some ((c.bus.mem_read_u16 c.program_counter + c.register_y) % 65536)
  | .Indirect_X =>
      let base := c.bus.mem_read c.program_counter
      let ptr := (base + c.register_x) % 256
      let lo := c.bus.mem_read ptr
      let hi := c.bus.mem_read ((ptr + 1) % 256)
      some (hi * 256 + lo)
  | .Indirect_Y =>
      let base := c.bus.mem_read c.program_counter
      let lo := c.bus.mem_read base
      let hi := c.bus.mem_read ((base + 1) % 256)
      some ((hi * 256 + lo + c.register_y) % 65536)
  | .NoneAddressing => none

/-- `update_zero_and_negative_flag`: Zero from `== 0`, Negative from bit 7. -/
def Cpu.update_zero_and_negative_flag (c : Cpu) (target_register : Nat) : Cpu :=
  let c := if target_register = 0 then { c with status.zero := true }
           else { c with status.zero := false }
  if target_register &&& 128 ≠ 0 then { c with status.negative := true }
  else { c with status.negative := false }

/-- `reset`: note the source resets only `register_a`, `register_x`, `status` and the
program counter; `register_y` and `stack_pointer` are left untouched. -/
def Cpu.reset (c : Cpu) : Cpu :=
  { c with register_a := 0, register_x := 0,
           status := CpuFlags.from_bits_truncate 0b100100,
           program_counter := c.bus.mem_read_u16 0xFFFC }

/-- `stack_pop`: increment the stack pointer (wrapping), then read. -/
def Cpu.stack_pop (c : Cpu) : Cpu × Nat :=
  let c := { c with stack_pointer := (c.stack_pointer + 1) % 256 }
  (c, c.bus.mem_read (STACK + c.stack_pointer))

/-- `stack_push`: write, then decrement the stack pointer (wrapping). -/
def Cpu.stack_push (c : Cpu) (data : Nat) : Cpu :=
  let c := { c with bus := c.bus.mem_write (STACK + c.stack_pointer) data }
  { c with stack_pointer := (c.stack_pointer + 255) % 256 }

def Cpu.stack_push_u16 (c : Cpu) (data : Nat) : Cpu :=
  let hi := data / 256 % 256
  let lo := data % 256
  (c.stack_push hi).stack_push lo

def Cpu.stack_pop_u16 (c : Cpu) : Cpu × Nat :=
  let (c, lo) := c.stack_pop
  let (c, hi) := c.stack_pop
  (c, hi * 256 + lo)

/-- `set_register_a`: write the accumulator and refresh Zero/Negative from it. -/
def Cpu.set_register_a (c : Cpu) (value : Nat) : Cpu :=
  let c := { c with register_a := value }
  c.update_zero_and_negative_flag c.register_a

def Cpu.lda (c : Cpu) (mode : AddressingMode) : Option Cpu := do
  let addr ← c.get_operand_address mode
  let value := c.bus.mem_read addr
  let c := { c with register_a := value }
  some (c.update_zero_and_negative_flag c.register_a)

/-- `ldx`: note the source updates the flags from `register_a`, not from the
value just loaded into `register_x`. -/
def Cpu.ldx (c : Cpu) (mode : AddressingMode) : Option Cpu := do
  let addr ← c.get_operand_address mode
  let value := c.bus.mem_read addr
  let c := { c with register_x := value }
  some (c.update_zero_and_negative_flag c.register_a)

/-- `ldy`: like `ldx`, the source updates the flags from `register_a`. -/
def Cpu.ldy (c : Cpu) (mode : AddressingMode) : Option Cpu := do
  let addr ← c.get_operand_address mode
  let value := c.bus.mem_read addr
  let c := { c with register_y := value }
  some (c.update_zero_and_negative_flag c.register_a)

def Cpu.sta (c : Cpu) (mode : AddressingMode) : Option Cpu := do
  let addr ← c.get_operand_address mode
  some { c with bus := c.bus.mem_write addr c.register_a }

def Cpu.stx (c : Cpu) (mode : AddressingMode) : Option Cpu := do
  let addr ← c.get_operand_address mode
  some { c with bus := c.bus.mem_write addr c.register_x }

def Cpu.sty (c : Cpu) (mode : AddressingMode) : Option Cpu := do
  let addr ← c.get_operand_address mode
  some { c with bus := c.bus.mem_write addr c.register_y }

def Cpu.tax (c : Cpu) : Cpu :=
  let c := { c with register_x := c.register_a }
  c.update_zero_and_negative_flag c.register_x

def Cpu.tay (c : Cpu) : Cpu :=
  let c := { c with register_y := c.register_a }
  c.update_zero_and_negative_flag c.register_y

def Cpu.txa (c : Cpu) : Cpu :=
  let c := { c with register_a := c.register_x }
  c.update_zero_and_negative_flag c.register_a

def Cpu.tya (c : Cpu) : Cpu :=
  let c := { c with register_a := c.register_y }
  c.update_zero_and_negative_flag c.register_a

def Cpu.inx (c : Cpu) : Cpu :=
  let c := { c with register_x := (c.register_x + 1) % 256 }
  c.update_zero_and_negative_flag c.register_x

def Cpu.iny (c : Cpu) : Cpu :=
  let c := { c with register_y := (c.register_y + 1) % 256 }
  c.update_zero_and_negative_flag c.register_y

def Cpu.dex (c : Cpu) : Cpu :=
  let c := { c with register_x := (c.register_x + 255) % 256 }
  c.update_zero_and_negative_flag c.register_x

def Cpu.dey (c : Cpu) : Cpu :=
  let c := { c with register_y := (c.register_y + 255) % 256 }
  c.update_zero_and_negative_flag c.register_y

/-- `add_to_register_a`: 9-bit sum of accumulator, operand and carry-in; Carry from
`sum > 0xff`, Overflow from `(data ^ result) & (result ^ register_a) & 0x80`
(the source's insert-on-true / remove-on-false conditionals on the two tests collapse
to direct flag assignments; the accumulator read by the overflow test is still the
pre-instruction value). -/
def Cpu.add_to_register_a (c : Cpu) (data : Nat) : Cpu :=
  let sum := c.register_a + data + (if c.status.carry then 1 else 0)
  let carry := decide (sum > 255)
  let result := sum % 256
  let overflow := decide (((data ^^^ result) &&& (result ^^^ c.register_a)) &&& 128 ≠ 0)
  let c := { c with status.carry := carry }
  let c := { c with status.overflow := overflow }
  c.set_register_a result

def Cpu.adc (c : Cpu) (mode : AddressingMode) : Option Cpu := do
  let addr ← c.get_operand_address mode
  let value := c.bus.mem_read addr
  some (c.add_to_register_a value)

/-- `(data as i8).wrapping_neg().wrapping_sub(1) as u8`: the operand fed to the
ADC path by SBC. -/
def negWrappingSubOne (data : Nat) : Nat :=
  ((256 - data % 256) % 256 + 255) % 256

def Cpu.sbc (c : Cpu) (mode : AddressingMode) : Option Cpu := do
  let addr ← c.get_operand_address mode
  let data := c.bus.mem_read addr
  some (c.add_to_register_a (negWrappingSubOne data))

/-- `php`: push status with BREAK and BREAK2 forced set. -/
def Cpu.php (c : Cpu) : Cpu :=
  let flags := { c.status with brk := true, brk2 := true }
  c.stack_push flags.bits

/-- `plp`: pop status (`from_bits` on a byte always succeeds), then clear BREAK and
set BREAK2. -/
def Cpu.plp (c : Cpu) : Cpu :=
  let (c, v) := c.stack_pop
  let c := { c with status := CpuFlags.ofBits v }
  let c := { c with status.brk := false }
  { c with status.brk2 := true }

def Cpu.pla (c : Cpu) : Cpu :=
  let (c, data) := c.stack_pop
  c.set_register_a data

def Cpu.and (c : Cpu) (mode : AddressingMode) : Option Cpu := do
  let addr ← c.get_operand_address mode
  let data := c.bus.mem_read addr
  some (c.set_register_a (data &&& c.register_a))

def Cpu.inc (c : Cpu) (mode : AddressingMode) : Option (Cpu × Nat) := do
  let addr ← c.get_operand_address mode
  let data := (c.bus.mem_read addr + 1) % 256
  let c := { c with bus := c.bus.mem_write addr data }
  some (c.update_zero_and_negative_flag data, data)

/-- `lsr`: accumulator mode only sets Carry and returns the shifted value; memory
modes also write the result back, refresh the flags, and (unlike `asl`/`rol`/`ror`)
copy the shifted value into the accumulator via `set_register_a`. -/
def Cpu.lsr (c : Cpu) (mode : AddressingMode) : Option (Cpu × Nat) :=
  match mode with
  | .NoneAddressing =>
      let data := c.register_a
      let c := if data &&& 1 = 1 then { c with status.carry := true }
               else { c with status.carry := false }
      some (c, data >>> 1)
  | _ => do
      let addr ← c.get_operand_address mode
      let data := c.bus.mem_read addr
      let c := if data &&& 1 = 1 then { c with status.carry := true }
               else { c with status.carry := false }
      let data := data >>> 1
      let c := { c with bus := c.bus.mem_write addr data }
      let c := c.update_zero_and_negative_flag data
      some (c.set_register_a data, 0)

/-- `asl`: shift left; memory modes write back and refresh flags but leave the
accumulator alone. -/
def Cpu.asl (c : Cpu) (mode : AddressingMode) : Option (Cpu × Nat) :=
  match mode with
  | .NoneAddressing =>
      let data := c.register_a
      let c := if data >>> 7 = 1 then { c with status.carry := true }
               else { c with status.carry := false }
      some (c, data * 2 % 256)
  | _ => do
      let addr ← c.get_operand_address mode
      let data := c.bus.mem_read addr
      let c := if data >>> 7 = 1 then { c with status.carry := true }
               else { c with status.carry := false }
      let data := data * 2 % 256
      let c := { c with bus := c.bus.mem_write addr data }
      some (c.update_zero_and_negative_flag data, 0)

def Cpu.rol (c : Cpu) (mode : AddressingMode) : Option (Cpu × Nat) :=
  match mode with
  | .NoneAddressing =>
      let data := c.register_a
      let old_carry := c.status.carry
      let c := if data >>> 7 = 1 then { c with status.carry := true }
               else { c with status.carry := false }
      let data := data * 2 % 256
      let data := if old_carry then data ||| 1 else data
      some (c, data)
  | _ => do
      let addr ← c.get_operand_address mode
      let data := c.bus.mem_read addr
      let old_carry := c.status.carry
      let c := if data >>> 7 = 1 then { c with status.carry := true }
               else { c with status.carry := false }
      let data := data * 2 % 256
      let data := if old_carry then data ||| 1 else data
      let c := { c with bus := c.bus.mem_write addr data }
      some (c.update_zero_and_negative_flag data, 0)

def Cpu.ror (c : Cpu) (mode : AddressingMode) : Option (Cpu × Nat) :=
  match mode with
  | .NoneAddressing =>
      let data := c.register_a
      let old_carry := c.status.carry
      let c := if data &&& 1 = 1 then { c with status.carry := true }
               else { c with status.carry := false }
      let data := data >>> 1
      let data := if old_carry then data ||| 128 else data
      some (c, data)
  | _ => do
      let addr ← c.get_operand_address mode
      let data := c.bus.mem_read addr
      let old_carry := c.status.carry
      let c := if data &&& 1 = 1 then { c with status.carry := true }
               else { c with status.carry := false }
      let data := data >>> 1
      let data := if old_carry then data ||| 128 else data
      let c := { c with bus := c.bus.mem_write addr data }
      some (c.update_zero_and_negative_flag data, 0)

def Cpu.and_with_register_a (c : Cpu) (data : Nat) : Cpu :=
  c.set_register_a (data &&& c.register_a)

def Cpu.xor_with_register_a (c : Cpu) (data : Nat) : Cpu :=
  c.set_register_a (data ^^^ c.register_a)

def Cpu.or_with_register_a (c : Cpu) (data : Nat) : Cpu :=
  c.set_register_a (data ||| c.register_a)

def Cpu.sre (c : Cpu) (mode : AddressingMode) : Option Cpu := do
  let (c, data) ← c.lsr mode
  some (c.xor_with_register_a data)

def Cpu.rla (c : Cpu) (mode : AddressingMode) : Option Cpu := do
  let (c, data) ← c.rol mode
  some (c.and_with_register_a data)

def Cpu.rra (c : Cpu) (mode : AddressingMode) : Option Cpu := do
  let (c, data) ← c.ror mode
  some (c.add_to_register_a data)

def Cpu.slo (c : Cpu) (mode : AddressingMode) : Option Cpu := do
  let (c, data) ← c.asl mode
  some (c.or_with_register_a data)

/-- `jsr`: push `program_counter + 2 - 1`, then jump to the absolute operand. -/
def Cpu.jsr (c : Cpu) : Cpu :=
  let c := c.stack_push_u16 ((c.program_counter + 2 - 1) % 65536)
  let target_address := c.bus.mem_read_u16 c.program_counter
  { c with program_counter := target_address }

def Cpu.rts (c : Cpu) : Cpu :=
  let (c, v) := c.stack_pop_u16
  { c with program_counter := (v + 1) % 65536 }

def Cpu.rti (c : Cpu) : Cpu :=
  let (c, v) := c.stack_pop
  let c := { c with status := CpuFlags.ofBits v }
  let (c, pc) := c.stack_pop_u16
  { c with program_counter := pc }

/-- `branch`: when the condition holds, add the sign-extended relative operand to the
program counter just past the operand byte. -/
def Cpu.branch (c : Cpu) (condition : Bool) : Cpu :=
  if condition then
    let jump := c.bus.mem_read c.program_counter
    let jump_u16 := if jump < 128 then jump else 65280 + jump
    { c with program_counter := (c.program_counter + 1 + jump_u16) % 65536 }
  else c

/-- `compare` (CMP/CPX/CPY): Carry iff `data <= compare_with`, Zero/Negative from
`compare_with.wrapping_sub(data)`. -/
def Cpu.compare (c : Cpu) (mode : AddressingMode) (compare_with : Nat) : Option Cpu := do
  let addr ← c.get_operand_address mode
  let data := c.bus.mem_read addr
  let c := if data ≤ compare_with then { c with status.carry := true }
           else { c with status.carry := false }
  some (c.update_zero_and_negative_flag ((compare_with + 256 - data) % 256))

def Cpu.bit (c : Cpu) (mode : AddressingMode) : Option Cpu := do
  let addr ← c.get_operand_address mode
  let data := c.bus.mem_read addr
  let and := c.register_a &&& data
  let c := if and = 0 then { c with status.zero := true } else { c with status.zero := false }
  let c := { c with status.negative := decide (data &&& 128 > 0) }
  some { c with status.overflow := decide (data &&& 64 > 0) }

/-- `jmp`: `NoneAddressing` is the indirect form with the 6502 page-boundary bug
(a pointer with low byte `0xFF` takes its high byte from the start of the same page,
`address & 0xFF00`); `Absolute` jumps to the operand; other modes do nothing. -/
def Cpu.jmp (c : Cpu) (mode : AddressingMode) : Cpu :=
  match mode with
  | .NoneAddressing =>
      let mem_address := c.bus.mem_read_u16 c.program_counter
      let indirect_ref :=
        if mem_address &&& 0x00FF = 0x00FF then
          let lo := c.bus.mem_read mem_address
          let hi := c.bus.mem_read (mem_address &&& 0xFF00)
          hi * 256 + lo
        else c.bus.mem_read_u16 mem_address
      { c with program_counter := indirect_ref }
  | .Absolute =>
      { c with program_counter := c.bus.mem_read_u16 c.program_counter }
  | _ => c

def Cpu.dec (c : Cpu) (mode : AddressingMode) : Option (Cpu × Nat) := do
  let addr ← c.get_operand_address mode
  let data := (c.bus.mem_read addr + 255) % 256
  let c := { c with bus := c.bus.mem_write addr data }
  some (c.update_zero_and_negative_flag data, data)

def Cpu.txs (c : Cpu) : Cpu := { c with stack_pointer := c.register_x }

def Cpu.tsx (c : Cpu) : Cpu :=
  let c := { c with register_x := c.stack_pointer }
  c.update_zero_and_negative_flag c.register_x

def Cpu.eor (c : Cpu) (mode : AddressingMode) : Option Cpu := do
  let addr ← c.get_operand_address mode
  let data := c.bus.mem_read addr
  some (c.set_register_a (data ^^^ c.register_a))

def Cpu.ora (c : Cpu) (mode : AddressingMode) : Option Cpu := do
  let addr ← c.get_operand_address mode
  let data := c.bus.mem_read addr
  some (c.set_register_a (data ||| c.register_a))

def Cpu.lax (c : Cpu) (mode : AddressingMode) : Option Cpu := do
  let addr ← c.get_operand_address mode
  let data := c.bus.mem_read addr
  let c := c.set_register_a data
  some { c with register_x := c.register_a }

def Cpu.sub_from_register_a (c : Cpu) (data : Nat) : Cpu :=
  c.add_to_register_a (negWrappingSubOne data)

def Cpu.isb (c : Cpu) (mode : AddressingMode) : Option Cpu := do
  let (c, data) ← c.inc mode
  some (c.sub_from_register_a data)

def Cpu.dcp (c : Cpu) (mode : AddressingMode) : Option Cpu := do
  let addr ← c.get_operand_address mode
  let data := (c.bus.mem_read addr + 255) % 256
  let c := { c with bus := c.bus.mem_write addr data }
  let c := if data ≤ c.register_a then { c with status.carry := true } else c
  some (c.update_zero_and_negative_flag ((c.register_a + 256 - data) % 256))

def Cpu.aax (c : Cpu) (mode : AddressingMode) : Option Cpu := do
  let addr ← c.get_operand_address mode
  some { c with bus := c.bus.mem_write addr (c.register_x &&& c.register_a) }

/-- Instruction descriptor (source: `opcodes.rs`, `struct Opcode`). -/
structure Opcode where
  code : Nat
  mnemonic : String
  len : Nat
  cycles : Nat
  mode : AddressingMode

/-- Chunk 0 of the opcode table (split to keep list literals small). -/
def opcodeChunk0 : List Opcode := [
  ⟨0x00, "BRK", 1, 7, .NoneAddressing⟩,
  ⟨0x08, "PHP", 1, 3, .NoneAddressing⟩,
  ⟨0x18, "CLC", 1, 0, .NoneAddressing⟩,
  ⟨0x20, "JSR", 3, 6, .Absolute⟩,
  ⟨0x28, "PLP", 1, 4, .NoneAddressing⟩,
  ⟨0x38, "SEC", 1, 0, .NoneAddressing⟩,
  ⟨0x40, "RTI", 1, 6, .NoneAddressing⟩,
  ⟨0x48, "PHA", 1, 0, .NoneAddressing⟩,
  ⟨0x58, "CLI", 1, 0, .NoneAddressing⟩,
  ⟨0x60, "RTS", 1, 6, .NoneAddressing⟩,
  ⟨0x68, "PLA", 1, 0, .NoneAddressing⟩,
  ⟨0x78, "SEI", 1, 0, .NoneAddressing⟩,
  ⟨0x88, "DEY", 1, 2, .NoneAddressing⟩,
  ⟨0x8A, "TXA", 1, 2, .NoneAddressing⟩,
  ⟨0x98, "TYA", 1, 2, .NoneAddressing⟩,
  ⟨0x9A, "TXS", 1, 2, .NoneAddressing⟩,
  ⟨0xA8, "TAY", 1, 2, .NoneAddressing⟩,
  ⟨0xAA, "TAX", 1, 2, .NoneAddressing⟩,
  ⟨0xB8, "CLV", 1, 0, .NoneAddressing⟩,
  ⟨0xBA, "TSX", 1, 2, .NoneAddressing⟩,
  ⟨0xC8, "INY", 1, 2, .NoneAddressing⟩,
  ⟨0xCA, "DEX", 1, 2, .NoneAddressing⟩,
  ⟨0xD8, "CLD", 1, 0, .NoneAddressing⟩,
  ⟨0xE8, "INX", 1, 2, .NoneAddressing⟩]

/-- Chunk 1 of the opcode table (split to keep list literals small). -/
def opcodeChunk1 : List Opcode := [
  ⟨0xF8, "SED", 1, 0, .NoneAddressing⟩,
  ⟨0x61, "ADC", 2, 6, .Indirect_X⟩,
  ⟨0x65, "ADC", 2, 3, .ZeroPage⟩,
  ⟨0x69, "ADC", 2, 2, .Immediate⟩,
  ⟨0x6D, "ADC", 3, 4, .Absolute⟩,
  ⟨0x71, "ADC", 2, 5, .Indirect_Y⟩,
  ⟨0x75, "ADC", 2, 4, .ZeroPage_X⟩,
  ⟨0x79, "ADC", 3, 4, .Absolute_Y⟩,
  ⟨0x7D, "ADC", 3, 4, .Absolute_X⟩,
  ⟨0x81, "STA", 2, 6, .Indirect_X⟩,
  ⟨0x85, "STA", 2, 3, .ZeroPage⟩,
  ⟨0x8D, "STA", 3, 4, .Absolute⟩,
  ⟨0x91, "STA", 2, 6, .Indirect_Y⟩,
  ⟨0x95, "STA", 2, 4, .ZeroPage_X⟩,
  ⟨0x99, "STA", 3, 5, .Absolute_Y⟩,
  ⟨0x9D, "STA", 3, 5, .Absolute_X⟩,
  ⟨0xA1, "LDA", 2, 6, .Indirect_X⟩,
  ⟨0xA5, "LDA", 2, 3, .ZeroPage⟩,
  ⟨0xA9, "LDA", 2, 2, .Immediate⟩,
  ⟨0xAD, "LDA", 3, 4, .Absolute⟩,
  ⟨0xB1, "LDA", 2, 5, .Indirect_Y⟩,
  ⟨0xB5, "LDA", 2, 4, .ZeroPage_X⟩,
  ⟨0xB9, "LDA", 3, 4, .Absolute_Y⟩,
  ⟨0xBD, "LDA", 3, 4, .Absolute_X⟩]

/-- Chunk 2 of the opcode table (split to keep list literals small). -/
def opcodeChunk2 : List Opcode := [
  ⟨0xA2, "LDX", 2, 2, .Immediate⟩,
  ⟨0xA6, "LDX", 2, 3, .ZeroPage⟩,
  ⟨0xAE, "LDX", 3, 4, .Absolute⟩,
  ⟨0xB6, "LDX", 2, 4, .ZeroPage_Y⟩,
  ⟨0xBE, "LDX", 3, 4, .Absolute_Y⟩,
  ⟨0xA0, "LDY", 2, 2, .Immediate⟩,
  ⟨0xA4, "LDY", 2, 3, .ZeroPage⟩,
  ⟨0xB4, "LDY", 2, 4, .ZeroPage_X⟩,
  ⟨0xAC, "LDY", 3, 4, .Absolute⟩,
  ⟨0xBC, "LDY", 3, 4, .Absolute_X⟩,
  ⟨0xE1, "SBC", 2, 6, .Indirect_X⟩,
  ⟨0xE5, "SBC", 2, 3, .ZeroPage⟩,
  ⟨0xE9, "SBC", 2, 2, .Immediate⟩,
  ⟨0xEB, "SBC", 2, 2, .Immediate⟩,
  ⟨0xED, "SBC", 3, 4, .Absolute⟩,
  ⟨0xF1, "SBC", 2, 5, .Indirect_Y⟩,
  ⟨0xF5, "SBC", 2, 4, .ZeroPage_X⟩,
  ⟨0xF9, "SBC", 3, 4, .Absolute_Y⟩,
  ⟨0xFD, "SBC", 3, 4, .Absolute_X⟩,
  ⟨0x29, "AND", 2, 2, .Immediate⟩,
  ⟨0x25, "AND", 2, 3, .ZeroPage⟩,
  ⟨0x35, "AND", 2, 4, .ZeroPage_X⟩,
  ⟨0x2D, "AND", 3, 4, .Absolute⟩,
  ⟨0x3D, "AND", 3, 4, .Absolute_X⟩]

/-- Chunk 3 of the opcode table (split to keep list literals small). -/
def opcodeChunk3 : List Opcode := [
  ⟨0x39, "AND", 3, 4, .Absolute_Y⟩,
  ⟨0x21, "AND", 2, 6, .Indirect_X⟩,
  ⟨0x31, "AND", 2, 5, .Indirect_Y⟩,
  ⟨0x0A, "ASL", 1, 2, .NoneAddressing⟩,
  ⟨0x06, "ASL", 2, 5, .ZeroPage⟩,
  ⟨0x16, "ASL", 2, 6, .ZeroPage_X⟩,
  ⟨0x0E, "ASL", 3, 6, .Absolute⟩,
  ⟨0x1E, "ASL", 3, 7, .Absolute_X⟩,
  ⟨0x2A, "ROL", 1, 2, .NoneAddressing⟩,
  ⟨0x26, "ROL", 2, 5, .ZeroPage⟩,
  ⟨0x36, "ROL", 2, 6, .ZeroPage_X⟩,
  ⟨0x2E, "ROL", 3, 6, .Absolute⟩,
  ⟨0x3E, "ROL", 3, 7, .Absolute_X⟩,
  ⟨0x6A, "ROR", 1, 2, .NoneAddressing⟩,
  ⟨0x66, "ROR", 2, 5, .ZeroPage⟩,
  ⟨0x76, "ROR", 2, 6, .ZeroPage_X⟩,
  ⟨0x6E, "ROR", 3, 6, .Absolute⟩,
  ⟨0x7E, "ROR", 3, 7, .Absolute_X⟩,
  ⟨0xC1, "CMP", 2, 6, .Indirect_X⟩,
  ⟨0xC5, "CMP", 2, 3, .ZeroPage⟩,
  ⟨0xC9, "CMP", 2, 2, .Immediate⟩,
  ⟨0xCD, "CMP", 3, 4, .Absolute⟩,
  ⟨0xD1, "CMP", 2, 5, .Indirect_Y⟩,
  ⟨0xD5, "CMP", 2, 4, .ZeroPage_X⟩]

/-- Chunk 4 of the opcode table (split to keep list literals small). -/
def opcodeChunk4 : List Opcode := [
  ⟨0xD9, "CMP", 3, 4, .Absolute_Y⟩,
  ⟨0xDD, "CMP", 3, 4, .Absolute_X⟩,
  ⟨0xE0, "CPX", 2, 2, .Immediate⟩,
  ⟨0xE4, "CPX", 2, 3, .ZeroPage⟩,
  ⟨0xEC, "CPX", 3, 4, .Absolute⟩,
  ⟨0xC0, "CPY", 2, 2, .Immediate⟩,
  ⟨0xC4, "CPY", 2, 3, .ZeroPage⟩,
  ⟨0xCC, "CPY", 3, 4, .Absolute⟩,
  ⟨0x10, "BPL", 2, 2, .NoneAddressing⟩,
  ⟨0x30, "BMI", 2, 2, .NoneAddressing⟩,
  ⟨0x50, "BVC", 2, 2, .NoneAddressing⟩,
  ⟨0x70, "BVS", 2, 2, .NoneAddressing⟩,
  ⟨0x90, "BCC", 2, 2, .NoneAddressing⟩,
  ⟨0xB0, "BCS", 2, 2, .NoneAddressing⟩,
  ⟨0xD0, "BNE", 2, 2, .NoneAddressing⟩,
  ⟨0xF0, "BEQ", 2, 2, .NoneAddressing⟩,
  ⟨0x4A, "LSR", 1, 2, .NoneAddressing⟩,
  ⟨0x46, "LSR", 2, 5, .ZeroPage⟩,
  ⟨0x56, "LSR", 2, 6, .ZeroPage_X⟩,
  ⟨0x4E, "LSR", 3, 6, .Absolute⟩,
  ⟨0x5E, "LSR", 3, 7, .Absolute_X⟩,
  ⟨0xE6, "INC", 2, 5, .ZeroPage⟩,
  ⟨0xF6, "INC", 2, 6, .ZeroPage_X⟩,
  ⟨0xEE, "INC", 3, 6, .Absolute⟩]

/-- Chunk 5 of the opcode table (split to keep list literals small). -/
def opcodeChunk5 : List Opcode := [
  ⟨0xFE, "INC", 3, 7, .Absolute_X⟩,
  ⟨0x24, "BIT", 2, 3, .ZeroPage⟩,
  ⟨0x2C, "BIT", 3, 4, .Absolute⟩,
  ⟨0x1A, "NOP", 1, 2, .NoneAddressing⟩,
  ⟨0x3A, "NOP", 1, 2, .NoneAddressing⟩,
  ⟨0x5A, "NOP", 1, 2, .NoneAddressing⟩,
  ⟨0x7A, "NOP", 1, 2, .NoneAddressing⟩,
  ⟨0xDA, "NOP", 1, 2, .NoneAddressing⟩,
  ⟨0xEA, "NOP", 1, 2, .NoneAddressing⟩,
  ⟨0xFA, "NOP", 1, 2, .NoneAddressing⟩,
  ⟨0x04, "DOP", 2, 3, .ZeroPage⟩,
  ⟨0x14, "DOP", 2, 4, .ZeroPage_X⟩,
  ⟨0x34, "DOP", 2, 4, .ZeroPage_X⟩,
  ⟨0x44, "DOP", 2, 3, .ZeroPage⟩,
  ⟨0x54, "DOP", 2, 4, .ZeroPage_X⟩,
  ⟨0x64, "DOP", 2, 3, .ZeroPage⟩,
  ⟨0x74, "DOP", 2, 4, .ZeroPage_X⟩,
  ⟨0x80, "DOP", 2, 2, .Immediate⟩,
  ⟨0x82, "DOP", 2, 2, .Immediate⟩,
  ⟨0x89, "DOP", 2, 2, .Immediate⟩,
  ⟨0xC2, "DOP", 2, 2, .Immediate⟩,
  ⟨0xD4, "DOP", 2, 4, .ZeroPage_X⟩,
  ⟨0xE2, "DOP", 2, 2, .Immediate⟩,
  ⟨0xF4, "DOP", 2, 4, .ZeroPage_X⟩]

/-- Chunk 6 of the opcode table (split to keep list literals small). -/
def opcodeChunk6 : List Opcode := [
  ⟨0x0C, "TOP", 3, 4, .Absolute⟩,
  ⟨0x1C, "TOP", 3, 4, .Absolute_X⟩,
  ⟨0x3C, "TOP", 3, 4, .Absolute_X⟩,
  ⟨0x5C, "TOP", 3, 4, .Absolute_X⟩,
  ⟨0x7C, "TOP", 3, 4, .Absolute_X⟩,
  ⟨0xDC, "TOP", 3, 4, .Absolute_X⟩,
  ⟨0xFC, "TOP", 3, 4, .Absolute_X⟩,
  ⟨0x4C, "JMP", 3, 3, .Absolute⟩,
  ⟨0x6C, "JMP", 3, 5, .NoneAddressing⟩,
  ⟨0xC6, "DEC", 2, 5, .ZeroPage⟩,
  ⟨0xD6, "DEC", 2, 6, .ZeroPage_X⟩,
  ⟨0xCE, "DEC", 3, 6, .Absolute⟩,
  ⟨0xDE, "DEC", 3, 7, .Absolute_X⟩,
  ⟨0x86, "STX", 2, 3, .ZeroPage⟩,
  ⟨0x96, "STX", 2, 4, .ZeroPage_Y⟩,
  ⟨0x8E, "STX", 3, 4, .Absolute⟩,
  ⟨0x84, "STY", 2, 3, .ZeroPage⟩,
  ⟨0x94, "STY", 2, 4, .ZeroPage_X⟩,
  ⟨0x8C, "STY", 3, 4, .Absolute⟩,
  ⟨0x01, "ORA", 2, 6, .Indirect_X⟩,
  ⟨0x05, "ORA", 2, 3, .ZeroPage⟩,
  ⟨0x09, "ORA", 2, 2, .Immediate⟩,
  ⟨0x0D, "ORA", 3, 4, .Absolute⟩,
  ⟨0x11, "ORA", 2, 5, .Indirect_Y⟩]

/-- Chunk 7 of the opcode table (split to keep list literals small). -/
def opcodeChunk7 : List Opcode := [
  ⟨0x15, "ORA", 2, 4, .ZeroPage_X⟩,
  ⟨0x19, "ORA", 3, 4, .Absolute_Y⟩,
  ⟨0x1D, "ORA", 3, 4, .Absolute_X⟩,
  ⟨0x41, "EOR", 2, 6, .Indirect_X⟩,
  ⟨0x45, "EOR", 2, 3, .ZeroPage⟩,
  ⟨0x49, "EOR", 2, 2, .Immediate⟩,
  ⟨0x4D, "EOR", 3, 4, .Absolute⟩,
  ⟨0x51, "EOR", 2, 5, .Indirect_Y⟩,
  ⟨0x55, "EOR", 2, 4, .ZeroPage_X⟩,
  ⟨0x59, "EOR", 3, 4, .Absolute_Y⟩,
  ⟨0x5D, "EOR", 3, 4, .Absolute_X⟩,
  ⟨0xA3, "LAX", 2, 6, .Indirect_X⟩,
  ⟨0xA7, "LAX", 2, 3, .ZeroPage⟩,
  ⟨0xAF, "LAX", 3, 4, .Absolute⟩,
  ⟨0xB3, "LAX", 2, 5, .Indirect_Y⟩,
  ⟨0xB7, "LAX", 2, 4, .ZeroPage_Y⟩,
  ⟨0xBF, "LAX", 3, 4, .Absolute_Y⟩,
  ⟨0x83, "AAX", 2, 6, .Indirect_X⟩,
  ⟨0x87, "AAX", 2, 3, .ZeroPage⟩,
  ⟨0x8F, "AAX", 3, 4, .Absolute⟩,
  ⟨0x97, "AAX", 2, 4, .ZeroPage_Y⟩,
  ⟨0xC3, "DCP", 2, 8, .Indirect_X⟩,
  ⟨0xC7, "DCP", 2, 5, .ZeroPage⟩,
  ⟨0xCF, "DCP", 3, 6, .Absolute⟩]

/-- Chunk 8 of the opcode table (split to keep list literals small). -/
def opcodeChunk8 : List Opcode := [
  ⟨0xD3, "DCP", 2, 8, .Indirect_Y⟩,
  ⟨0xD7, "DCP", 2, 6, .ZeroPage_X⟩,
  ⟨0xDB, "DCP", 3, 7, .Absolute_Y⟩,
  ⟨0xDF, "DCP", 3, 7, .Absolute_X⟩,
  ⟨0xE3, "ISB", 2, 8, .Indirect_X⟩,
  ⟨0xE7, "ISB", 2, 5, .ZeroPage⟩,
  ⟨0xEF, "ISB", 3, 6, .Absolute⟩,
  ⟨0xF3, "ISB", 2, 8, .Indirect_Y⟩,
  ⟨0xF7, "ISB", 2, 6, .ZeroPage_X⟩,
  ⟨0xFB, "ISB", 3, 7, .Absolute_Y⟩,
  ⟨0xFF, "ISB", 3, 7, .Absolute_X⟩,
  ⟨0x03, "SLO", 2, 8, .Indirect_X⟩,
  ⟨0x07, "SLO", 2, 5, .ZeroPage⟩,
  ⟨0x0F, "SLO", 3, 6, .Absolute⟩,
  ⟨0x13, "SLO", 2, 8, .Indirect_Y⟩,
  ⟨0x17, "SLO", 2, 6, .ZeroPage_X⟩,
  ⟨0x1B, "SLO", 3, 7, .Absolute_Y⟩,
  ⟨0x1F, "SLO", 3, 7, .Absolute_X⟩,
  ⟨0x23, "RLA", 2, 8, .Indirect_X⟩,
  ⟨0x27, "RLA", 2, 5, .ZeroPage⟩,
  ⟨0x2F, "RLA", 3, 6, .Absolute⟩,
  ⟨0x33, "RLA", 2, 8, .Indirect_Y⟩,
  ⟨0x37, "RLA", 2, 6, .ZeroPage_X⟩,
  ⟨0x3B, "RLA", 3, 7, .Absolute_Y⟩]

/-- Chunk 9 of the opcode table (split to keep list literals small). -/
def opcodeChunk9 : List Opcode := [
  ⟨0x3F, "RLA", 3, 7, .Absolute_X⟩,
  ⟨0x43, "SRE", 2, 8, .Indirect_X⟩,
  ⟨0x47, "SRE", 2, 5, .ZeroPage⟩,
  ⟨0x4F, "SRE", 3, 6, .Absolute⟩,
  ⟨0x53, "SRE", 2, 8, .Indirect_Y⟩,
  ⟨0x57, "SRE", 2, 6, .ZeroPage_X⟩,
  ⟨0x5B, "SRE", 3, 7, .Absolute_Y⟩,
  ⟨0x5F, "SRE", 3, 7, .Absolute_X⟩,
  ⟨0x63, "RRA", 2, 8, .Indirect_X⟩,
  ⟨0x67, "RRA", 2, 5, .ZeroPage⟩,
  ⟨0x6F, "RRA", 3, 6, .Absolute⟩,
  ⟨0x73, "RRA", 2, 8, .Indirect_Y⟩,
  ⟨0x77, "RRA", 2, 6, .ZeroPage_X⟩,
  ⟨0x7B, "RRA", 3, 7, .Absolute_Y⟩,
  ⟨0x7F, "RRA", 3, 7, .Absolute_X⟩]

/-- The static opcode table (source: `opcodes.rs`, `CPU_OPS_CODES`). -/
def CPU_OPS_CODES : List Opcode :=
  opcodeChunk0 ++ opcodeChunk1 ++ opcodeChunk2 ++ opcodeChunk3 ++ opcodeChunk4 ++ opcodeChunk5 ++ opcodeChunk6 ++ opcodeChunk7 ++ opcodeChunk8 ++ opcodeChunk9

/-- `OPCODES_MAP` lookup: the opcode bytes in `CPU_OPS_CODES` are pairwise distinct,
so the first hit is the unique map entry. -/
def OPCODES_MAP (code : Nat) : Option Opcode :=
  CPU_OPS_CODES.find? (fun op => op.code == code)

/-- Dispatch on the mnemonic, as in the `match operation.mnemonic` of
`run_with_callback`.  `BRK` is handled by the caller (`Cpu.step`); a mnemonic that
would hit the `todo!()` arm, or a handler panic, yields `none`. -/
def Cpu.dispatch (c : Cpu) (operation : Opcode) : Option Cpu :=
  match operation.mnemonic with
  | "ADC" => c.adc operation.mode
  | "AND" => c.and operation.mode
  | "ASL" => (c.asl operation.mode).map Prod.fst
  | "BCC" => some (c.branch (!c.status.carry))
  | "BCS" => some (c.branch c.status.carry)
  | "BEQ" => some (c.branch c.status.zero)
  | "BMI" => some (c.branch c.status.negative)
  | "BNE" => some (c.branch (!c.status.zero))
  | "BPL" => some (c.branch (!c.status.negative))
  | "BVC" => some (c.branch (!c.status.overflow))
  | "BVS" => some (c.branch c.status.overflow)
  | "CLC" => some { c with status.carry := false }
  | "CLD" => some { c with status.decimal_mode := false }
  | "CLI" => some { c with status.interrupt_disable := false }
  | "CLV" => some { c with status.overflow := false }
  | "CMP" => c.compare operation.mode c.register_a
  | "CPX" => c.compare operation.mode c.register_x
  | "CPY" => c.compare operation.mode c.register_y
  | "DEX" => some c.dex
  | "INX" => some c.inx
  | "INY" => some c.iny
  | "JSR" => some c.jsr
  | "LDA" => c.lda operation.mode
  | "LDX" => c.ldx operation.mode
  | "PHA" => some (c.stack_push c.register_a)
  | "PHP" => some c.php
  | "PLA" => some c.pla
  | "PLP" => some c.plp
  | "ROL" => (c.rol operation.mode).map Prod.fst
  | "ROR" => (c.ror operation.mode).map Prod.fst
  | "RTS" => some c.rts
  | "SBC" => c.sbc operation.mode
  | "SEC" => some { c with status.carry := true }
  | "SED" => some { c with status.decimal_mode := true }
  | "SEI" => some { c with status.interrupt_disable := true }
  | "STA" => c.sta operation.mode
  | "TAX" => some c.tax
  | "TXA" => some c.txa
  | "LSR" => (c.lsr operation.mode).map Prod.fst
  | "INC" => (c.inc operation.mode).map Prod.fst
  | "BIT" => c.bit operation.mode
  | "LDY" => c.ldy operation.mode
  | "NOP" => some c
  | "JMP" => some (c.jmp operation.mode)
  | "DEC" => (c.dec operation.mode).map Prod.fst
  | "TXS" => some c.txs
  | "TSX" => some c.tsx
  | "STX" => c.stx operation.mode
  | "STY" => c.sty operation.mode
  | "ORA" => c.ora operation.mode
  | "EOR" => c.eor operation.mode
  | "DEY" => some c.dey
  | "TAY" => some c.tay
  | "TYA" => some c.tya
  | "RTI" => some c.rti
  | "DOP" => some c
  | "TOP" => some c
  | "LAX" => c.lax operation.mode
  | "AAX" => c.aax operation.mode
  | "DCP" => c.dcp operation.mode
  | "ISB" => c.isb operation.mode
  | "SLO" => c.slo operation.mode
  | "RLA" => c.rla operation.mode
  | "SRE" => c.sre operation.mode
  | "RRA" => c.rra operation.mode
  | _ => none

/-- Outcome of one iteration of the `run_with_callback` loop. -/
inductive StepResult
  | halted (c : Cpu)
  | fail
  | ok (c : Cpu)

/-- One iteration of `run_with_callback` (the callback does not alter the state):
fetch the opcode, advance the program counter, record it, look the opcode up
(a missing entry panics), dispatch, and finally advance the program counter by
`len - 1` exactly when the handler left it at its post-fetch value.  The loop never
reads the bus's pending-NMI signal. -/
def Cpu.step (c : Cpu) : StepResult :=
  let opcode := c.bus.mem_read c.program_counter
  let c := { c with program_counter := (c.program_counter + 1) % 65536 }
  let program_counter_state := c.program_counter
  match OPCODES_MAP opcode with
  | none => .fail
  | some operation =>
    if operation.mnemonic = "BRK" then .halted c
    else
      match c.dispatch operation with
      | none => .fail
      | some c =>
        if program_counter_state = c.program_counter then
          .ok { c with program_counter := (c.program_counter + (operation.len - 1)) % 65536 }
        else .ok c

/-- Program counter of a step outcome. -/
def StepResult.pcOf : StepResult → Option Nat
  | .halted c => some c.program_counter
  | .fail => none
  | .ok c => some c.program_counter

/-- Stack pointer of a step outcome. -/
def StepResult.spOf : StepResult → Option Nat
  | .halted c => some c.stack_pointer
  | .fail => none
  | .ok c => some c.stack_pointer

/-- Accumulator of a step outcome. -/
def StepResult.aOf : StepResult → Option Nat
  | .halted c => some c.register_a
  | .fail => none
  | .ok c => some c.register_a

/-- Interrupt-disable flag of a step outcome. -/
def StepResult.interruptDisableOf : StepResult → Option Bool
  | .halted c => some c.status.interrupt_disable
  | .fail => none
  | .ok c => some c.status.interrupt_disable

/-- Mirroring mode (source: `rom.rs`, not among the provided sources; spec section 3
names horizontal and vertical mirroring, and the renderer panics on other modes). -/
inductive Mirroring
  | Vertical
  | Horizontal
  | FourScreen
  deriving DecidableEq

/-- PPU control register (source: `ppu_registers.rs`, `bitflags ControlRegister: u8`),
kept as its raw byte. -/
structure ControlRegister where
  bits : Nat

/-- `nametable_addr`: base nametable from the low two control bits. -/
def ControlRegister.nametable_addr (r : ControlRegister) : Nat :=
  match r.bits &&& 3 with
  | 0 => 0x2000
  | 1 => 0x2400
  | 2 => 0x2800
  | _ => 0x2c00

/-- `sprt_pattern_addr`: sprite pattern bank from `SPRITE_PATTERN_ADDR` (bit 3). -/
def ControlRegister.sprt_pattern_addr (r : ControlRegister) : Nat :=
  if r.bits &&& 8 = 0 then 0 else 0x1000

/-- `bknd_pattern_addr`: background pattern bank from `BACKROUND_PATTERN_ADDR` (bit 4). -/
def ControlRegister.bknd_pattern_addr (r : ControlRegister) : Nat :=
  if r.bits &&& 16 = 0 then 0 else 0x1000

/-- Scroll register (source: `ppu_registers.rs`, `struct ScrollRegister`). -/
structure ScrollRegister where
  scroll_x : Nat
  scroll_y : Nat
  latch : Bool

/-- Modelled from the spec: the PPU module itself is not among the provided sources.
These are the pieces of PPU state consumed by `render` (spec section 3): pattern
memory, palette memory, nametable VRAM, OAM, mirroring mode, control register and
scroll register.  Byte arrays are modelled as total functions from index to byte. -/
structure NesPPU where
  chr_rom : Nat → Nat
  palette_table : Nat → Nat
  vram : Nat → Nat
  oam_data : Nat → Nat
  mirroring : Mirroring
  ctrl : ControlRegister
  scroll : ScrollRegister

/-- Modelled from the spec: `frame.rs` is not among the provided sources.  Spec
sections 3 and 6.4: a fixed 256 by 240 grid of RGB triples; `set_pixel` writes one
pixel and ignores coordinates outside the grid. -/
structure Frame where
  data : Nat → Nat → Nat × Nat × Nat

def Frame.set_pixel (f : Frame) (x y : Nat) (rgb : Nat × Nat × Nat) : Frame :=
  if x < 256 ∧ y < 240 then
    { data := fun a b => if a = x ∧ b = y then rgb else f.data a b }
  else f

/-- First quarter of the fixed 64-entry hardware palette (source: `render.rs`,
`SYSTEM_PALLETE`). -/
def SYSTEM_PALLETE_A : List (Nat × Nat × Nat) := [
  (0x80, 0x80, 0x80), (0x00, 0x3D, 0xA6), (0x00, 0x12, 0xB0), (0x44, 0x00, 0x96),
  (0xA1, 0x00, 0x5E), (0xC7, 0x00, 0x28), (0xBA, 0x06, 0x00), (0x8C, 0x17, 0x00),
  (0x5C, 0x2F, 0x00), (0x10, 0x45, 0x00), (0x05, 0x4A, 0x00), (0x00, 0x47, 0x2E),
  (0x00, 0x41, 0x66), (0x00, 0x00, 0x00), (0x05, 0x05, 0x05), (0x05, 0x05, 0x05)]

/-- Second quarter of `SYSTEM_PALLETE`. -/
def SYSTEM_PALLETE_B : List (Nat × Nat × Nat) := [
  (0xC7, 0xC7, 0xC7), (0x00, 0x77, 0xFF), (0x21, 0x55, 0xFF), (0x82, 0x37, 0xFA),
  (0xEB, 0x2F, 0xB5), (0xFF, 0x29, 0x50), (0xFF, 0x22, 0x00), (0xD6, 0x32, 0x00),
  (0xC4, 0x62, 0x00), (0x35, 0x80, 0x00), (0x05, 0x8F, 0x00), (0x00, 0x8A, 0x55),
  (0x00, 0x99, 0xCC), (0x21, 0x21, 0x21), (0x09, 0x09, 0x09), (0x09, 0x09, 0x09)]

/-- Third quarter of `SYSTEM_PALLETE`. -/
def SYSTEM_PALLETE_C : List (Nat × Nat × Nat) := [
  (0xFF, 0xFF, 0xFF), (0x0F, 0xD7, 0xFF), (0x69, 0xA2, 0xFF), (0xD4, 0x80, 0xFF),
  (0xFF, 0x45, 0xF3), (0xFF, 0x61, 0x8B), (0xFF, 0x88, 0x33), (0xFF, 0x9C, 0x12),
  (0xFA, 0xBC, 0x20), (0x9F, 0xE3, 0x0E), (0x2B, 0xF0, 0x35), (0x0C, 0xF0, 0xA4),
  (0x05, 0xFB, 0xFF), (0x5E, 0x5E, 0x5E), (0x0D, 0x0D, 0x0D), (0x0D, 0x0D, 0x0D)]

/-- Fourth quarter of `SYSTEM_PALLETE`. -/
def SYSTEM_PALLETE_D : List (Nat × Nat × Nat) := [
  (0xFF, 0xFF, 0xFF), (0xA6, 0xFC, 0xFF), (0xB3, 0xEC, 0xFF), (0xDA, 0xAB, 0xEB),
  (0xFF, 0xA8, 0xF9), (0xFF, 0xAB, 0xB3), (0xFF, 0xD2, 0xB0), (0xFF, 0xEF, 0xA6),
  (0xFF, 0xF7, 0x9C), (0xD7, 0xE8, 0x95), (0xA6, 0xED, 0xAF), (0xA2, 0xF2, 0xDA),
  (0x99, 0xFF, 0xFC), (0xDD, 0xDD, 0xDD), (0x11, 0x11, 0x11), (0x11, 0x11, 0x11)]

/-- The fixed 64-entry hardware palette (source: `render.rs`, `SYSTEM_PALLETE`). -/
def SYSTEM_PALLETE : List (Nat × Nat × Nat) :=
  SYSTEM_PALLETE_A ++ SYSTEM_PALLETE_B ++ SYSTEM_PALLETE_C ++ SYSTEM_PALLETE_D

/-- `bg_pallette`: 4-colour background palette of a tile from its attribute byte. -/
def bg_pallette (ppu : NesPPU) (attribute_table : Nat → Nat)
    (tile_column tile_row : Nat) : List Nat :=
  let attr_table_idx := tile_row / 4 * 8 + tile_column / 4
  let attr_byte := attribute_table attr_table_idx
  let pallet_idx :=
    match tile_column % 4 / 2, tile_row % 4 / 2 with
    | 0, 0 => attr_byte &&& 3
    | 1, 0 => (attr_byte >>> 2) &&& 3
    | 0, 1 => (attr_byte >>> 4) &&& 3
    | _, _ => (attr_byte >>> 6) &&& 3
  let pallete_start := 1 + pallet_idx * 4
  [ppu.palette_table 0, ppu.palette_table pallete_start,
   ppu.palette_table (pallete_start + 1), ppu.palette_table (pallete_start + 2)]

/-- `sprite_palette`: 4-colour sprite palette; entry 0 is transparent. -/
def sprite_palette (ppu : NesPPU) (pallete_idx : Nat) : List Nat :=
  let start := 0x11 + pallete_idx * 4
  [0, ppu.palette_table start, ppu.palette_table (start + 1),
   ppu.palette_table (start + 2)]

/-- Viewport rectangle (source: `render.rs`, `struct Rect`). -/
structure Rect where
  x1 : Nat
  y1 : Nat
  x2 : Nat
  y2 : Nat

/-- `as usize` applied to an `isize` on a 64-bit host (two's-complement cast). -/
def usizeCast (i : Int) : Nat := (i % (2 ^ 64 : Int)).toNat

/-- `render_name_table`: the background pass over one nametable.  The source shifts
the two plane bytes right once per loop step, so pixel column `x` consumes bit
`7 - x` of each plane; that indexing is written directly here. -/
def render_name_table (ppu : NesPPU) (frame : Frame) (name_table : Nat → Nat)
    (view_port : Rect) (shift_x shift_y : Int) : Frame :=
  let bank := ppu.ctrl.bknd_pattern_addr
  let attribute_table := fun j => name_table (0x3c0 + j)
  (List.range 0x3c0).foldl (fun frame i =>
    let tile_column := i % 32
    let tile_row := i / 32
    let tile_idx := name_table i
    let palette := bg_pallette ppu attribute_table tile_column tile_row
    (List.range 8).foldl (fun frame y =>
      let upper := ppu.chr_rom (bank + tile_idx * 16 + y)
      let lower := ppu.chr_rom (bank + tile_idx * 16 + y + 8)
      ((List.range 8).reverse).foldl (fun frame x =>
        let value := ((lower >>> (7 - x)) &&& 1) * 2 + ((upper >>> (7 - x)) &&& 1)
        let rgb :=
          match value with
          | 0 => SYSTEM_PALLETE.getD (ppu.palette_table 0) (0, 0, 0)
          | 1 => SYSTEM_PALLETE.getD (palette.getD 1 0) (0, 0, 0)
          | 2 => SYSTEM_PALLETE.getD (palette.getD 2 0) (0, 0, 0)
          | _ => SYSTEM_PALLETE.getD (palette.getD 3 0) (0, 0, 0)
        let pixel_x := tile_column * 8 + x
        let pixel_y := tile_row * 8 + y
        if view_port.x1 ≤ pixel_x ∧ pixel_x < view_port.x2 ∧
           view_port.y1 ≤ pixel_y ∧ pixel_y < view_port.y2 then
          frame.set_pixel (usizeCast (shift_x + pixel_x)) (usizeCast (shift_y + pixel_y)) rgb
        else frame) frame) frame) frame

/-- OAM byte 1 of the sprite whose OAM byte offset is `i`: its tile index. -/
def spriteTileIdx (ppu : NesPPU) (i : Nat) : Nat := ppu.oam_data (i + 1)

/-- OAM byte 3: the sprite's screen X. -/
def spriteTileX (ppu : NesPPU) (i : Nat) : Nat := ppu.oam_data (i + 3)

/-- OAM byte 0: the sprite's screen Y. -/
def spriteTileY (ppu : NesPPU) (i : Nat) : Nat := ppu.oam_data i

/-- Bit 7 of OAM byte 2: vertical flip. -/
def spriteFlipV (ppu : NesPPU) (i : Nat) : Bool :=
  (ppu.oam_data (i + 2) >>> 7) &&& 1 == 1

/-- Bit 6 of OAM byte 2: horizontal flip. -/
def spriteFlipH (ppu : NesPPU) (i : Nat) : Bool :=
  (ppu.oam_data (i + 2) >>> 6) &&& 1 == 1

/-- The 2-bit pattern value of sprite `i` at tile coordinates `(x, y)`.  The source
shifts the plane bytes right once per loop step, so pixel column `x` consumes bit
`7 - x` of each plane. -/
def spritePixelValue (ppu : NesPPU) (i x y : Nat) : Nat :=
  let bank := ppu.ctrl.sprt_pattern_addr
  let upper := ppu.chr_rom (bank + spriteTileIdx ppu i * 16 + y)
  let lower := ppu.chr_rom (bank + spriteTileIdx ppu i * 16 + y + 8)
  ((lower >>> (7 - x)) &&& 1) * 2 + ((upper >>> (7 - x)) &&& 1)

/-- The RGB colour the sprite pass paints for sprite `i` at tile coordinates
`(x, y)` (only consulted for non-zero pattern values). -/
def spritePixelColor (ppu : NesPPU) (i x y : Nat) : Nat × Nat × Nat :=
  let pal := sprite_palette ppu (ppu.oam_data (i + 2) &&& 3)
  match spritePixelValue ppu i x y with
  | 1 => SYSTEM_PALLETE.getD (pal.getD 1 0) (0, 0, 0)
  | 2 => SYSTEM_PALLETE.getD (pal.getD 2 0) (0, 0, 0)
  | _ => SYSTEM_PALLETE.getD (pal.getD 3 0) (0, 0, 0)

/-- Screen X written for tile column `x` of sprite `i` (flip-aware). -/
def spriteTargetX (ppu : NesPPU) (i x : Nat) : Nat :=
  if spriteFlipH ppu i then spriteTileX ppu i + 7 - x else spriteTileX ppu i + x

/-- Screen Y written for tile row `y` of sprite `i` (flip-aware). -/
def spriteTargetY (ppu : NesPPU) (i y : Nat) : Nat :=
  if spriteFlipV ppu i then spriteTileY ppu i + 7 - y else spriteTileY ppu i + y

/-- Body of the sprite pass's innermost loop: draw tile pixel `(x, y)` of the
sprite at OAM byte offset `i`; a zero pattern value is skipped (`continue`). -/
def spriteDrawPixel (ppu : NesPPU) (i y : Nat) (frame : Frame) (x : Nat) : Frame :=
  let value := spritePixelValue ppu i x y
  if value = 0 then frame
  else
    let rgb := spritePixelColor ppu i x y
    match spriteFlipH ppu i, spriteFlipV ppu i with
    | false, false =>
        frame.set_pixel (spriteTileX ppu i + x) (spriteTileY ppu i + y) rgb
    | true, false =>
        frame.set_pixel (spriteTileX ppu i + 7 - x) (spriteTileY ppu i + y) rgb
    | false, true =>
        frame.set_pixel (spriteTileX ppu i + x) (spriteTileY ppu i + 7 - y) rgb
    | true, true =>
        frame.set_pixel (spriteTileX ppu i + 7 - x) (spriteTileY ppu i + 7 - y) rgb

/-- One row (`y`) of the sprite pass: `for x in (0..=7).rev()`. -/
def spriteDrawRow (ppu : NesPPU) (i : Nat) (frame : Frame) (y : Nat) : Frame :=
  ((List.range 8).reverse).foldl (spriteDrawPixel ppu i y) frame

/-- One iteration of the sprite pass: draw the whole sprite at OAM byte offset `i`
(`for y in 0..=7`). -/
def spriteIter (ppu : NesPPU) (frame : Frame) (i : Nat) : Frame :=
  (List.range 8).foldl (spriteDrawRow ppu i) frame

/-- `render`: background pass over the main (and, under scroll, secondary)
nametable, then the sprite pass iterating the OAM byte offsets
`(0..256).step_by(4).rev()`, i.e. sprite 63 first and sprite 0 last.  The
unreachable mirroring arm (the source panics there) reuses the first pairing. -/
def render (ppu : NesPPU) (frame : Frame) : Frame :=
  let scroll_x := ppu.scroll.scroll_x
  let scroll_y := ppu.scroll.scroll_y
  let nametables : (Nat → Nat) × (Nat → Nat) :=
    match ppu.mirroring, ppu.ctrl.nametable_addr with
    | .Vertical, 0x2000 | .Vertical, 0x2800 | .Horizontal, 0x2000 | .Horizontal, 0x2400 =>
        (fun j => ppu.vram j, fun j => ppu.vram (0x400 + j))
    | .Vertical, 0x2400 | .Vertical, 0x2C00 | .Horizontal, 0x2800 | .Horizontal, 0x2C00 =>
        (fun j => ppu.vram (0x400 + j), fun j => ppu.vram j)
    | _, _ =>
        (fun j => ppu.vram j, fun j => ppu.vram (0x400 + j))
  let frame := render_name_table ppu frame nametables.1
    ⟨scroll_x, scroll_y, 256, 240⟩ (-(scroll_x : Int)) (-(scroll_y : Int))
  let frame :=
    if 0 < scroll_x then
      render_name_table ppu frame nametables.2
        ⟨0, 0, scroll_x, 240⟩ ((256 : Int) - scroll_x) 0
    else if 0 < scroll_y then
      render_name_table ppu frame nametables.2
        ⟨0, 0, 256, scroll_y⟩ 0 ((240 : Int) - scroll_y)
    else frame
  (((List.range 64).map (fun k => k * 4)).reverse).foldl (spriteIter ppu) frame

/-! Basic facts about the embedded data types. -/

theorem Bus.mem_read_lt (b : Bus) (addr : Nat) : b.mem_read addr < 256 :=
  Nat.mod_lt _ (by omega)

theorem Bus.mem_read_mem_write_same (b : Bus) (addr addr2 data : Nat)
    (h : addr2 % 65536 = addr % 65536) :
    (b.mem_write addr data).mem_read addr2 = data % 256 := by
  simp only [Bus.mem_read, Bus.mem_write, h, if_pos]
  omega

theorem Bus.mem_read_mem_write_ne (b : Bus) (addr addr2 data : Nat)
    (h : addr2 % 65536 ≠ addr % 65536) :
    (b.mem_write addr data).mem_read addr2 = b.mem_read addr2 := by
  simp only [Bus.mem_read, Bus.mem_write, h, if_neg, if_false]

theorem CpuFlags.bits_lt (f : CpuFlags) : f.bits < 256 := by
  rcases f with ⟨a, b, c, d, e, g, h, i⟩
  revert a b c d e g h i
  decide

theorem CpuFlags.ofBits_bits (f : CpuFlags) : CpuFlags.ofBits f.bits = f := by
  rcases f with ⟨a, b, c, d, e, g, h, i⟩
  revert a b c d e g h i
  decide

set_option maxRecDepth 2048 in
/-- Bit 7 of a byte is set exactly when the byte is at least 128. -/
theorem and128_fin : ∀ m : Fin 256, ((m.val &&& 128 ≠ 0) ↔ 128 ≤ m.val) := by decide

theorem and128_iff (n : Nat) (h : n < 256) : (n &&& 128 ≠ 0) ↔ 128 ≤ n :=
  and128_fin ⟨n, h⟩

/-! Projections of the small state transformers, used to push flag and register
facts through composite handlers. -/

@[simp] theorem update_zn_register_a (c : Cpu) (v : Nat) :
    (c.update_zero_and_negative_flag v).register_a = c.register_a := by
  unfold Cpu.update_zero_and_negative_flag; split_ifs <;> rfl

@[simp] theorem update_zn_register_x (c : Cpu) (v : Nat) :
    (c.update_zero_and_negative_flag v).register_x = c.register_x := by
  unfold Cpu.update_zero_and_negative_flag; split_ifs <;> rfl

@[simp] theorem update_zn_register_y (c : Cpu) (v : Nat) :
    (c.update_zero_and_negative_flag v).register_y = c.register_y := by
  unfold Cpu.update_zero_and_negative_flag; split_ifs <;> rfl

@[simp] theorem update_zn_program_counter (c : Cpu) (v : Nat) :
    (c.update_zero_and_negative_flag v).program_counter = c.program_counter := by
  unfold Cpu.update_zero_and_negative_flag; split_ifs <;> rfl

@[simp] theorem update_zn_stack_pointer (c : Cpu) (v : Nat) :
    (c.update_zero_and_negative_flag v).stack_pointer = c.stack_pointer := by
  unfold Cpu.update_zero_and_negative_flag; split_ifs <;> rfl

@[simp] theorem update_zn_bus (c : Cpu) (v : Nat) :
    (c.update_zero_and_negative_flag v).bus = c.bus := by
  unfold Cpu.update_zero_and_negative_flag; split_ifs <;> rfl

@[simp] theorem update_zn_carry (c : Cpu) (v : Nat) :
    (c.update_zero_and_negative_flag v).status.carry = c.status.carry := by
  unfold Cpu.update_zero_and_negative_flag; split_ifs <;> rfl

@[simp] theorem update_zn_interrupt_disable (c : Cpu) (v : Nat) :
    (c.update_zero_and_negative_flag v).status.interrupt_disable =
      c.status.interrupt_disable := by
  unfold Cpu.update_zero_and_negative_flag; split_ifs <;> rfl

@[simp] theorem update_zn_overflow (c : Cpu) (v : Nat) :
    (c.update_zero_and_negative_flag v).status.overflow = c.status.overflow := by
  unfold Cpu.update_zero_and_negative_flag; split_ifs <;> rfl

@[simp] theorem update_zn_zero (c : Cpu) (v : Nat) :
    (c.update_zero_and_negative_flag v).status.zero = decide (v = 0) := by
  unfold Cpu.update_zero_and_negative_flag
  split_ifs <;> simp_all

@[simp] theorem update_zn_negative (c : Cpu) (v : Nat) :
    (c.update_zero_and_negative_flag v).status.negative = decide (v &&& 128 ≠ 0) := by
  unfold Cpu.update_zero_and_negative_flag
  split_ifs <;> simp_all

@[simp] theorem set_register_a_register_a (c : Cpu) (v : Nat) :
    (c.set_register_a v).register_a = v := by
  unfold Cpu.set_register_a; simp

@[simp] theorem set_register_a_register_x (c : Cpu) (v : Nat) :
    (c.set_register_a v).register_x = c.register_x := by
  unfold Cpu.set_register_a; simp

@[simp] theorem set_register_a_register_y (c : Cpu) (v : Nat) :
    (c.set_register_a v).register_y = c.register_y := by
  unfold Cpu.set_register_a; simp

@[simp] theorem set_register_a_program_counter (c : Cpu) (v : Nat) :
    (c.set_register_a v).program_counter = c.program_counter := by
  unfold Cpu.set_register_a; simp

@[simp] theorem set_register_a_stack_pointer (c : Cpu) (v : Nat) :
    (c.set_register_a v).stack_pointer = c.stack_pointer := by
  unfold Cpu.set_register_a; simp

@[simp] theorem set_register_a_bus (c : Cpu) (v : Nat) :
    (c.set_register_a v).bus = c.bus := by
  unfold Cpu.set_register_a; simp

@[simp] theorem set_register_a_carry (c : Cpu) (v : Nat) :
    (c.set_register_a v).status.carry = c.status.carry := by
  unfold Cpu.set_register_a; simp

@[simp] theorem set_register_a_zero (c : Cpu) (v : Nat) :
    (c.set_register_a v).status.zero = decide (v = 0) := by
  unfold Cpu.set_register_a; simp

@[simp] theorem set_register_a_negative (c : Cpu) (v : Nat) :
    (c.set_register_a v).status.negative = decide (v &&& 128 ≠ 0) := by
  unfold Cpu.set_register_a; simp

/-- `(data as i8).wrapping_neg().wrapping_sub(1)` is `255 - data` on bytes. -/
theorem negWrappingSubOne_eq (data : Nat) (h : data < 256) :
    negWrappingSubOne data = 255 - data := by
  unfold negWrappingSubOne; omega

/-- Register, carry and frame effects of `add_to_register_a`: the accumulator becomes
the 8-bit sum, Carry records the 9-bit overflow, and nothing else moves. -/
theorem add_to_register_a_spec (c : Cpu) (data : Nat) :
    (c.add_to_register_a data).register_a =
      (c.register_a + data + (if c.status.carry then 1 else 0)) % 256 ∧
    (c.add_to_register_a data).status.carry =
      decide (c.register_a + data + (if c.status.carry then 1 else 0) > 255) ∧
    (c.add_to_register_a data).program_counter = c.program_counter ∧
    (c.add_to_register_a data).bus = c.bus ∧
    (c.add_to_register_a data).stack_pointer = c.stack_pointer := by
  unfold Cpu.add_to_register_a
  simp

/-! Claim theorems. -/

/-- C1: for the indirect JMP instruction (opcode 0x6C, which the table maps to the
`NoneAddressing` path of `jmp`), when the 16-bit pointer operand has low byte 0xFF,
the target's low byte is read at the pointer address and its high byte at the start
of the same page (`pointer & 0xFF00`), not from the next page. -/
theorem claim_C1_jmp_indirect_page_bug (c : Cpu)
    (h : c.bus.mem_read_u16 c.program_counter &&& 0x00FF = 0x00FF) :
    OPCODES_MAP 0x6C = some ⟨0x6C, "JMP", 3, 5, .NoneAddressing⟩ ∧
    (c.jmp .NoneAddressing).program_counter =
      c.bus.mem_read (c.bus.mem_read_u16 c.program_counter &&& 0xFF00) * 256 +
        c.bus.mem_read (c.bus.mem_read_u16 c.program_counter) := by
  refine ⟨rfl, ?_⟩
  simp only [Cpu.jmp, h, if_pos]

/-- Memory for the C1 witness: the concrete scenario of the claim, a pointer operand
`0x30FF` at `0x0600` with `0x80` at `0x30FF`, `0x50` at `0x3100` and `0x40` at `0x3000`. -/
def jmpBugMem : Nat → Nat := fun a =>
  if a = 0x0600 then 0xFF else if a = 0x0601 then 0x30 else
  if a = 0x30FF then 0x80 else if a = 0x3100 then 0x50 else
  if a = 0x3000 then 0x40 else 0

def jmpBugCpu : Cpu :=
  { register_a := 0, register_x := 0, register_y := 0,
    status := CpuFlags.ofBits 0x24, program_counter := 0x0600, stack_pointer := 0xfd,
    bus := { mem := jmpBugMem, nmi_pending := false } }

/-- C1 witness: on the claim's concrete memory the jump lands at 0x4080, not 0x5080. -/
theorem claim_C1_witness :
    jmpBugCpu.bus.mem_read_u16 jmpBugCpu.program_counter &&& 0x00FF = 0x00FF ∧
    (jmpBugCpu.jmp .NoneAddressing).program_counter = 0x4080 ∧
    (0x4080 : Nat) ≠ 0x5080 := by
  refine ⟨by decide, ?_, by decide⟩
  exact ((claim_C1_jmp_indirect_page_bug jmpBugCpu (by decide)).2).trans (by decide)

/-- C5: a compare instruction with register value `r` and memory operand `m` sets
Carry iff `m ≤ r`, Zero iff `r = m`, and Negative from bit 7 of the wrapping
difference `r - m`. -/
theorem claim_C5_compare_flags (c : Cpu) (mode : AddressingMode) (r addr : Nat)
    (hr : r < 256) (haddr : c.get_operand_address mode = some addr) :
    ∃ c2, c.compare mode r = some c2 ∧
      c2.status.carry = decide (c.bus.mem_read addr ≤ r) ∧
      c2.status.zero = decide (r = c.bus.mem_read addr) ∧
      c2.status.negative = decide (128 ≤ (r + 256 - c.bus.mem_read addr) % 256) := by
  have hd := Bus.mem_read_lt c.bus addr
  unfold Cpu.compare
  rw [haddr]
  simp only [Option.some_bind]
  refine ⟨_, rfl, ?_, ?_, ?_⟩
  · split_ifs with hle <;> simp [hle]
  · rw [update_zn_zero, decide_eq_decide]
    omega
  · rw [update_zn_negative, decide_eq_decide]
    exact and128_iff _ (by omega)

def cmpCpu : Cpu :=
  { register_a := 0, register_x := 0, register_y := 0,
    status := CpuFlags.ofBits 0x24, program_counter := 0x0600, stack_pointer := 0xfd,
    bus := { mem := fun a => if a = 0x0600 then 3 else 0, nmi_pending := false } }

/-- C5 witness: comparing register value 5 with immediate operand 3 sets Carry and
clears Zero and Negative. -/
theorem claim_C5_witness :
    ∃ c2, cmpCpu.compare .Immediate 5 = some c2 ∧
      c2.status.carry = true ∧ c2.status.zero = false ∧ c2.status.negative = false := by
  obtain ⟨c2, h1, h2, h3, h4⟩ :=
    claim_C5_compare_flags cmpCpu .Immediate 5 0x0600 (by decide) (by decide)
  exact ⟨c2, h1, h2.trans (by decide), h3.trans (by decide), h4.trans (by decide)⟩

def ldxBugCpu : Cpu :=
  { register_a := 5, register_x := 1, register_y := 1,
    status := CpuFlags.ofBits 0x24, program_counter := 0x0600, stack_pointer := 0xfd,
    bus := { mem := fun a => if a = 0x0600 then 0 else if a = 0x0601 then 5 else 0,
             nmi_pending := false } }

def ldxBugCpu2 : Cpu := { ldxBugCpu with register_a := 0, program_counter := 0x0601 }

/-- C7: the claim says LDX/LDY derive Zero/Negative from the value
just loaded, but the code passes `register_a` to the flag update.  With
`register_a = 5`, `LDX #$00` loads 0 yet leaves Zero clear; with `register_a = 0`,
`LDX #$05` loads 5 yet sets Zero.  The same holds for LDY.  This contradicts the
spec's flag rule and is a copy-paste slip (every other load/transfer uses its own
result), so the claim stands and the code is wrong. -/
theorem claim_C7_ldx_ldy_flags_from_a :
    (ldxBugCpu.ldx .Immediate).map (fun c => (c.register_x, c.status.zero)) =
      some (0, false) ∧
    (ldxBugCpu2.ldx .Immediate).map (fun c => (c.register_x, c.status.zero)) =
      some (5, true) ∧
    (ldxBugCpu.ldy .Immediate).map (fun c => (c.register_y, c.status.zero)) =
      some (0, false) ∧
    (ldxBugCpu2.ldy .Immediate).map (fun c => (c.register_y, c.status.zero)) =
      some (5, true) := by
  decide

/-- C8 (amended): `reset()` zeroes the accumulator and X, restores the status default
`0b100100`, and loads the program counter little-endian from 0xFFFC; it leaves
`register_y` and the stack pointer at their prior values. -/
theorem claim_C8_reset (c : Cpu) :
    (c.reset).register_a = 0 ∧
    (c.reset).register_x = 0 ∧
    (c.reset).status = CpuFlags.from_bits_truncate 0b100100 ∧
    (c.reset).program_counter = c.bus.mem_read 0xFFFD * 256 + c.bus.mem_read 0xFFFC ∧
    (c.reset).register_y = c.register_y ∧
    (c.reset).stack_pointer = c.stack_pointer :=
  ⟨rfl, rfl, rfl, rfl, rfl, rfl⟩

def resetCpuA : Cpu :=
  { register_a := 77, register_x := 66, register_y := 7,
    status := CpuFlags.ofBits 0xff, program_counter := 0x1234, stack_pointer := 3,
    bus := { mem := fun _ => 0, nmi_pending := false } }

def resetCpuB : Cpu := { resetCpuA with register_y := 9, stack_pointer := 11 }

/-- C8 counterexample: after `reset()` the Y register and the stack pointer still
hold whatever they held before, so they are not set to fixed hardware defaults. -/
theorem claim_C8_counterexample :
    (resetCpuA.reset).register_y = 7 ∧ (resetCpuB.reset).register_y = 9 ∧
    (resetCpuA.reset).stack_pointer = 3 ∧ (resetCpuB.reset).stack_pointer = 11 := by
  decide

/-- C10: in a memory addressing mode, LSR writes the shifted value to the addressed
cell and also copies it into the accumulator, with Zero/Negative reflecting that
value; ASL, ROL and ROR in the same modes leave the accumulator unchanged. -/
theorem claim_C10_lsr_writes_accumulator (c : Cpu) (mode : AddressingMode) (addr : Nat)
    (hmode : mode = .ZeroPage ∨ mode = .ZeroPage_X ∨ mode = .Absolute ∨
             mode = .Absolute_X)
    (haddr : c.get_operand_address mode = some addr) :
    (∃ c2, c.lsr mode = some (c2, 0) ∧
      c2.register_a = c.bus.mem_read addr >>> 1 ∧
      c2.bus.mem_read addr = c.bus.mem_read addr >>> 1 ∧
      c2.status.zero = decide (c.bus.mem_read addr >>> 1 = 0) ∧
      c2.status.negative = decide (c.bus.mem_read addr >>> 1 &&& 128 ≠ 0)) ∧
    (∃ c3, c.asl mode = some (c3, 0) ∧ c3.register_a = c.register_a) ∧
    (∃ c4, c.rol mode = some (c4, 0) ∧ c4.register_a = c.register_a) ∧
    (∃ c5, c.ror mode = some (c5, 0) ∧ c5.register_a = c.register_a) := by
  have hd := Bus.mem_read_lt c.bus addr
  have hsh : c.bus.mem_read addr >>> 1 < 256 := by
    rw [Nat.shiftRight_eq_div_pow]
    omega
  rcases hmode with rfl | rfl | rfl | rfl <;>
    · refine ⟨?_, ?_, ?_, ?_⟩
      · unfold Cpu.lsr
        rw [haddr]
        simp only [Option.some_bind]
        refine ⟨_, rfl, ?_, ?_, ?_, ?_⟩ <;> split_ifs <;>
          simp [Bus.mem_read_mem_write_same, Nat.mod_eq_of_lt hsh]
      · unfold Cpu.asl
        rw [haddr]
        simp only [Option.some_bind]
        refine ⟨_, rfl, ?_⟩
        split_ifs <;> simp
      · unfold Cpu.rol
        rw [haddr]
        simp only [Option.some_bind]
        refine ⟨_, rfl, ?_⟩
        split_ifs <;> simp
      · unfold Cpu.ror
        rw [haddr]
        simp only [Option.some_bind]
        refine ⟨_, rfl, ?_⟩
        split_ifs <;> simp

def lsrCpu : Cpu :=
  { register_a := 7, register_x := 0, register_y := 0,
    status := CpuFlags.ofBits 0x24, program_counter := 0x0600, stack_pointer := 0xfd,
    bus := { mem := fun a => if a = 0x0600 then 0x10 else if a = 0x10 then 129 else 0,
             nmi_pending := false } }

/-- C10 witness: `LSR $10` with memory holding 129 leaves 64 both at `$10` and in the
accumulator, while ASL/ROL/ROR on the same cell keep the accumulator at 7. -/
theorem claim_C10_witness :
    lsrCpu.get_operand_address .ZeroPage = some 0x10 ∧
    ((∃ c2, lsrCpu.lsr .ZeroPage = some (c2, 0) ∧
      c2.register_a = lsrCpu.bus.mem_read 0x10 >>> 1 ∧
      c2.bus.mem_read 0x10 = lsrCpu.bus.mem_read 0x10 >>> 1 ∧
      c2.status.zero = decide (lsrCpu.bus.mem_read 0x10 >>> 1 = 0) ∧
      c2.status.negative = decide (lsrCpu.bus.mem_read 0x10 >>> 1 &&& 128 ≠ 0)) ∧
    (∃ c3, lsrCpu.asl .ZeroPage = some (c3, 0) ∧ c3.register_a = lsrCpu.register_a) ∧
    (∃ c4, lsrCpu.rol .ZeroPage = some (c4, 0) ∧ c4.register_a = lsrCpu.register_a) ∧
    (∃ c5, lsrCpu.ror .ZeroPage = some (c5, 0) ∧ c5.register_a = lsrCpu.register_a)) ∧
    lsrCpu.bus.mem_read 0x10 >>> 1 = 64 ∧ lsrCpu.register_a = 7 :=
  ⟨by decide,
   claim_C10_lsr_writes_accumulator lsrCpu .ZeroPage 0x10 (Or.inl rfl) (by decide),
   by decide, by decide⟩

/-- C4: PHP immediately followed by PLP restores every status flag except that Break
ends cleared and Break2 ends set; the pushed byte itself has Break and Break2 set,
and the stack pointer returns to its pre-PHP value. -/
theorem claim_C4_php_plp (c : Cpu) (hsp : c.stack_pointer < 256) :
    ((c.php).plp).status = { c.status with brk := false, brk2 := true } ∧
    ((c.php).plp).stack_pointer = c.stack_pointer ∧
    (CpuFlags.ofBits ((c.php).bus.mem_read (STACK + c.stack_pointer))).brk = true ∧
    (CpuFlags.ofBits ((c.php).bus.mem_read (STACK + c.stack_pointer))).brk2 = true := by
  have hbits : (CpuFlags.mk c.status.carry c.status.zero c.status.interrupt_disable
      c.status.decimal_mode true true c.status.overflow c.status.negative).bits < 256 :=
    CpuFlags.bits_lt _
  have hread : (c.bus.mem_write (STACK + c.stack_pointer)
      (CpuFlags.mk c.status.carry c.status.zero c.status.interrupt_disable
        c.status.decimal_mode true true c.status.overflow c.status.negative).bits).mem_read
      (STACK + c.stack_pointer) =
      (CpuFlags.mk c.status.carry c.status.zero c.status.interrupt_disable
        c.status.decimal_mode true true c.status.overflow c.status.negative).bits := by
    rw [Bus.mem_read_mem_write_same _ _ _ _ rfl, Nat.mod_eq_of_lt hbits]
  have hsp2 : (((c.stack_pointer + 255) % 256) + 1) % 256 = c.stack_pointer := by omega
  refine ⟨?_, ?_, ?_, ?_⟩
  · unfold Cpu.plp Cpu.stack_pop Cpu.php Cpu.stack_push
    simp only [hsp2, hread, CpuFlags.ofBits_bits]
  · unfold Cpu.plp Cpu.stack_pop Cpu.php Cpu.stack_push
    simp only [hsp2]
  · unfold Cpu.php Cpu.stack_push
    simp only [hread, CpuFlags.ofBits_bits]
  · unfold Cpu.php Cpu.stack_push
    simp only [hread, CpuFlags.ofBits_bits]

def phpCpu : Cpu :=
  { register_a := 0, register_x := 0, register_y := 0,
    status := CpuFlags.ofBits 0xC3, program_counter := 0x0600, stack_pointer := 0xfd,
    bus := { mem := fun _ => 0, nmi_pending := false } }

/-- C4 witness: a concrete status byte 0xC3 round-trips through PHP then PLP with
Break cleared and Break2 set, the stack pointer back at 0xfd, and a pushed byte with
both Break bits set. -/
theorem claim_C4_witness :
    phpCpu.stack_pointer < 256 ∧
    (((phpCpu.php).plp).status = { phpCpu.status with brk := false, brk2 := true } ∧
     ((phpCpu.php).plp).stack_pointer = phpCpu.stack_pointer ∧
     (CpuFlags.ofBits ((phpCpu.php).bus.mem_read (STACK + phpCpu.stack_pointer))).brk =
       true ∧
     (CpuFlags.ofBits
         ((phpCpu.php).bus.mem_read (STACK + phpCpu.stack_pointer))).brk2 = true) :=
  ⟨by decide, claim_C4_php_plp phpCpu (by decide)⟩

/-- C2 (amended): executing ADC with operand `d` and then SBC with the same operand
(the SBC consuming the ADC's carry) yields accumulator
`(a + carry_in + carry_out + 255) % 256`, where `carry_out` is the carry the ADC
produced; this equals the original `a` exactly when `carry_out` differs from
`carry_in`, not for all inputs. -/
theorem claim_C2_adc_sbc (c : Cpu) (hra : c.register_a < 256) :
    ∃ c1 c2, c.adc .Immediate = some c1 ∧ c1.sbc .Immediate = some c2 ∧
      c2.register_a =
        (c.register_a + (if c.status.carry then 1 else 0) +
          (if c1.status.carry then 1 else 0) + 255) % 256 ∧
      (c2.register_a = c.register_a ↔ c.status.carry ≠ c1.status.carry) := by
  have hd := Bus.mem_read_lt c.bus c.program_counter
  set d := c.bus.mem_read c.program_counter with hdd
  obtain ⟨ha1, hc1, hpc1, hbus1, hsp1⟩ := add_to_register_a_spec c d
  refine ⟨c.add_to_register_a d, (c.add_to_register_a d).add_to_register_a
      (negWrappingSubOne ((c.add_to_register_a d).bus.mem_read
        (c.add_to_register_a d).program_counter)), rfl, rfl, ?_, ?_⟩ <;>
    · rw [hbus1, hpc1, ← hdd, negWrappingSubOne_eq d hd]
      obtain ⟨ha2, hc2, hpc2, hbus2, hsp2⟩ :=
        add_to_register_a_spec (c.add_to_register_a d) (255 - d)
      rw [ha2, ha1, hc1]
      split_ifs with h1 h2 h2 <;> simp_all <;> omega

def adcSbcCpu : Cpu :=
  { register_a := 0, register_x := 0, register_y := 0,
    status := CpuFlags.ofBits 0, program_counter := 0x0600, stack_pointer := 0xfd,
    bus := { mem := fun _ => 0, nmi_pending := false } }

/-- C2 counterexample: with accumulator 0, carry clear and operand 0, ADC followed by
SBC leaves the accumulator at 255, not at the original 0, refuting the claim that the
pair restores the accumulator for every input. -/
theorem claim_C2_counterexample :
    ((adcSbcCpu.adc .Immediate).bind (fun c1 => c1.sbc .Immediate)).map
        (fun c2 => c2.register_a) = some 255 ∧
    adcSbcCpu.register_a = 0 ∧ (255 : Nat) ≠ 0 := by
  decide

def adcSbcWitnessCpu : Cpu :=
  { register_a := 10, register_x := 0, register_y := 0,
    status := CpuFlags.ofBits 0, program_counter := 0x0600, stack_pointer := 0xfd,
    bus := { mem := fun a => if a = 0x0600 then 3 else 0, nmi_pending := false } }

/-- C2 witness: the amended formula instantiated at accumulator 10, operand 3,
carry-in clear. -/
theorem claim_C2_witness :
    adcSbcWitnessCpu.register_a < 256 ∧
    ∃ c1 c2, adcSbcWitnessCpu.adc .Immediate = some c1 ∧
      c1.sbc .Immediate = some c2 ∧
      c2.register_a =
        (adcSbcWitnessCpu.register_a + (if adcSbcWitnessCpu.status.carry then 1 else 0) +
          (if c1.status.carry then 1 else 0) + 255) % 256 ∧
      (c2.register_a = adcSbcWitnessCpu.register_a ↔
        adcSbcWitnessCpu.status.carry ≠ c1.status.carry) :=
  ⟨by decide, claim_C2_adc_sbc adcSbcWitnessCpu (by decide)⟩

/-- C6 (amended): after a taken branch whose relative operand is not 0xFF (-1), the
dispatch loop performs no additional program-counter advance: one step from a BNE
with Zero clear lands exactly on the branch target `pc + 2 + offset` (sign-extended).
For offset 0xFF the branch target coincides with the post-fetch program counter, so
the loop's `len - 1` advance fires and the instruction is double-advanced. -/
theorem claim_C6_branch_advance (c : Cpu)
    (hop : c.bus.mem_read c.program_counter = 0xD0)
    (hz : c.status.zero = false)
    (hoff : c.bus.mem_read ((c.program_counter + 1) % 65536) ≠ 0xFF) :
    c.step.pcOf =
      some ((c.program_counter + 2 +
        (if c.bus.mem_read ((c.program_counter + 1) % 65536) < 128 then
          c.bus.mem_read ((c.program_counter + 1) % 65536)
         else 65280 + c.bus.mem_read ((c.program_counter + 1) % 65536))) % 65536) := by
  have ho := Bus.mem_read_lt c.bus ((c.program_counter + 1) % 65536)
  unfold Cpu.step
  simp only [hop]
  rw [show OPCODES_MAP 0xD0 = some ⟨0xD0, "BNE", 2, 2, .NoneAddressing⟩ from rfl]
  simp only [Cpu.dispatch, Cpu.branch, hz, Bool.not_false, if_true, reduceIte,
    reduceCtorEq]
  rw [if_neg (show ¬("BNE" = "BRK") from by decide)]
  split_ifs with h1 h2 h2 <;> dsimp only [StepResult.pcOf] <;>
    simp only [Option.some.injEq] <;> omega

def bneMem : Nat → Nat := fun a =>
  if a = 0x0600 then 0xD0 else if a = 0x0601 then 0xFF else 0

def bneWrapCpu : Cpu :=
  { register_a := 0, register_x := 0, register_y := 0,
    status := CpuFlags.ofBits 0, program_counter := 0x0600, stack_pointer := 0xfd,
    bus := { mem := bneMem, nmi_pending := false } }

/-- C6 counterexample: a taken BNE with offset 0xFF (-1) sets the program counter to
its post-fetch value 0x0601, so the loop adds `len - 1` and the step ends at 0x0602
instead of the branch target 0x0601 — the branch is double-advanced. -/
theorem claim_C6_counterexample :
    bneWrapCpu.step.pcOf = some 0x0602 ∧ (0x0602 : Nat) ≠ 0x0601 := by
  constructor
  · decide
  · decide

def bneOkCpu : Cpu :=
  { register_a := 0, register_x := 0, register_y := 0,
    status := CpuFlags.ofBits 0, program_counter := 0x0600, stack_pointer := 0xfd,
    bus := { mem := fun a => if a = 0x0600 then 0xD0 else
               if a = 0x0601 then 0x10 else 0,
             nmi_pending := false } }

/-- C6 witness: a taken BNE with offset 0x10 steps exactly to
`0x0600 + 2 + 0x10 = 0x0612`, with no extra advance. -/
theorem claim_C6_witness :
    bneOkCpu.bus.mem_read bneOkCpu.program_counter = 0xD0 ∧
    bneOkCpu.step.pcOf =
      some ((bneOkCpu.program_counter + 2 +
        (if bneOkCpu.bus.mem_read ((bneOkCpu.program_counter + 1) % 65536) < 128 then
          bneOkCpu.bus.mem_read ((bneOkCpu.program_counter + 1) % 65536)
         else 65280 + bneOkCpu.bus.mem_read ((bneOkCpu.program_counter + 1) % 65536))) %
          65536) ∧
    (bneOkCpu.program_counter + 2 +
        bneOkCpu.bus.mem_read ((bneOkCpu.program_counter + 1) % 65536)) % 65536 =
      0x0612 :=
  ⟨by decide,
   claim_C6_branch_advance bneOkCpu (by decide) (by decide) (by decide),
   by decide⟩

def nmiMem : Nat → Nat := fun a =>
  if a = 0x0600 then 0xA9 else if a = 0x0601 then 0x05 else
  if a = 0xFFFA then 0x34 else if a = 0xFFFB then 0x12 else 0

def nmiCpu : Cpu :=
  { register_a := 0, register_x := 0, register_y := 0,
    status := CpuFlags.ofBits 0, program_counter := 0x0600, stack_pointer := 0xfd,
    bus := { mem := nmiMem, nmi_pending := true } }

/-- C3: the claim (and the spec) say the run loop checks the bus for a pending NMI
before every fetch and services it; the loop in `run_with_callback` never reads the
NMI signal.  With an NMI pending and `LDA #$05` at the program counter, one loop
iteration simply executes the LDA: the program counter moves to 0x0602 rather than
the NMI vector target 0x1234, nothing is pushed (stack pointer still 0xfd), and the
interrupt-disable flag stays clear. -/
theorem claim_C3_nmi_never_checked :
    nmiCpu.bus.nmi_pending = true ∧
    nmiCpu.bus.mem_read_u16 0xFFFA = 0x1234 ∧
    nmiCpu.step.pcOf = some 0x0602 ∧
    nmiCpu.step.spOf = some 0xfd ∧
    nmiCpu.step.aOf = some 0x05 ∧
    nmiCpu.step.interruptDisableOf = some false ∧
    (0x0602 : Nat) ≠ 0x1234 := by
  refine ⟨rfl, by decide, by decide, by decide, by decide, by decide, by decide⟩

/-! Lemmas about the sprite pass of the renderer, leading up to C9. -/

theorem set_pixel_data_same (f : Frame) (x y : Nat) (rgb : Nat × Nat × Nat)
    (hx : x < 256) (hy : y < 240) :
    (f.set_pixel x y rgb).data x y = rgb := by
  unfold Frame.set_pixel
  rw [if_pos ⟨hx, hy⟩]
  simp

theorem set_pixel_data_ne (f : Frame) (x y a b : Nat) (rgb : Nat × Nat × Nat)
    (h : ¬(a = x ∧ b = y)) :
    (f.set_pixel x y rgb).data a b = f.data a b := by
  unfold Frame.set_pixel
  split_ifs <;> simp [h]

theorem spriteTargetX_inj (ppu : NesPPU) (i x1 x2 : Nat) (h1 : x1 < 8) (h2 : x2 < 8)
    (h : spriteTargetX ppu i x1 = spriteTargetX ppu i x2) : x1 = x2 := by
  unfold spriteTargetX at h
  split_ifs at h <;> omega

theorem spriteTargetY_inj (ppu : NesPPU) (i y1 y2 : Nat) (h1 : y1 < 8) (h2 : y2 < 8)
    (h : spriteTargetY ppu i y1 = spriteTargetY ppu i y2) : y1 = y2 := by
  unfold spriteTargetY at h
  split_ifs at h <;> omega

/-- A pixel whose screen position differs from this sprite pixel's target is
untouched by drawing it. -/
theorem spriteDrawPixel_data_ne (ppu : NesPPU) (i y x px py : Nat) (frame : Frame)
    (h : ¬(spriteTargetX ppu i x = px ∧ spriteTargetY ppu i y = py)) :
    (spriteDrawPixel ppu i y frame x).data px py = frame.data px py := by
  simp only [spriteDrawPixel]
  split_ifs with hv
  · rfl
  · unfold spriteTargetX spriteTargetY at h
    cases hFH : spriteFlipH ppu i <;> cases hFV : spriteFlipV ppu i <;>
      simp only [hFH, hFV, if_true, if_false, Bool.false_eq_true, ite_true,
        ite_false] at h ⊢ <;>
      exact set_pixel_data_ne _ _ _ _ _ _ (fun hc => h ⟨hc.1.symm, hc.2.symm⟩)

/-- Drawing an opaque, on-screen sprite pixel paints its colour at its target. -/
theorem spriteDrawPixel_data_hit (ppu : NesPPU) (i x y : Nat) (frame : Frame)
    (hv : spritePixelValue ppu i x y ≠ 0)
    (hx : spriteTargetX ppu i x < 256) (hy : spriteTargetY ppu i y < 240) :
    (spriteDrawPixel ppu i y frame x).data (spriteTargetX ppu i x)
      (spriteTargetY ppu i y) = spritePixelColor ppu i x y := by
  simp only [spriteDrawPixel]
  rw [if_neg hv]
  simp only [spriteTargetX, spriteTargetY] at hx hy ⊢
  cases hFH : spriteFlipH ppu i <;> cases hFV : spriteFlipV ppu i <;>
    simp only [hFH, hFV, if_true, if_false, Bool.false_eq_true, ite_true,
      ite_false] at hx hy ⊢ <;>
    exact set_pixel_data_same _ _ _ _ hx hy

/-- A row fold leaves a pixel alone when no drawn column targets it. -/
theorem spriteRow_foldl_miss (ppu : NesPPU) (i y px py : Nat) (xs : List Nat)
    (frame : Frame)
    (h : ∀ x ∈ xs, ¬(spriteTargetX ppu i x = px ∧ spriteTargetY ppu i y = py)) :
    (xs.foldl (spriteDrawPixel ppu i y) frame).data px py = frame.data px py := by
  induction xs generalizing frame with
  | nil => rfl
  | cons a as ih =>
    rw [List.foldl_cons,
      ih _ (fun x hx => h x (List.mem_cons_of_mem a hx))]
    exact spriteDrawPixel_data_ne _ _ _ _ _ _ _ (h a (List.mem_cons_self a as))

/-- A row fold paints the colour of the unique column that targets the pixel. -/
theorem spriteRow_foldl_hit (ppu : NesPPU) (i y x0 px py : Nat) (xs : List Nat)
    (frame : Frame)
    (hmem : x0 ∈ xs)
    (hinj : ∀ x ∈ xs, spriteTargetX ppu i x = px → x = x0)
    (hv : spritePixelValue ppu i x0 y ≠ 0)
    (htx : spriteTargetX ppu i x0 = px) (hty : spriteTargetY ppu i y = py)
    (hpx : px < 256) (hpy : py < 240) :
    (xs.foldl (spriteDrawPixel ppu i y) frame).data px py =
      spritePixelColor ppu i x0 y := by
  induction xs generalizing frame with
  | nil => cases hmem
  | cons a as ih =>
    rw [List.foldl_cons]
    by_cases hmem2 : x0 ∈ as
    · exact ih _ hmem2 (fun x hx => hinj x (List.mem_cons_of_mem a hx))
    · have ha : a = x0 := by
        rcases List.mem_cons.mp hmem with h | h
        · exact h.symm
        · exact absurd h hmem2
      subst ha
      rw [spriteRow_foldl_miss ppu i y px py as _ ?_]
      · rw [← htx, ← hty]
        exact spriteDrawPixel_data_hit ppu i a y frame hv (htx ▸ hpx) (hty ▸ hpy)
      · intro x hx hcontr
        exact hmem2 (hinj x (List.mem_cons_of_mem a hx) hcontr.1 ▸ hx)

/-- The whole-sprite fold leaves a pixel alone when no drawn row targets it. -/
theorem spriteCol_foldl_miss (ppu : NesPPU) (i px py : Nat) (ys : List Nat)
    (frame : Frame)
    (h : ∀ y ∈ ys, spriteTargetY ppu i y ≠ py) :
    (ys.foldl (spriteDrawRow ppu i) frame).data px py = frame.data px py := by
  induction ys generalizing frame with
  | nil => rfl
  | cons b bs ih =>
    rw [List.foldl_cons,
      ih _ (fun y hy => h y (List.mem_cons_of_mem b hy))]
    unfold spriteDrawRow
    exact spriteRow_foldl_miss ppu i b px py _ frame
      (fun x _ hc => h b (List.mem_cons_self b bs) hc.2)

/-- The whole-sprite fold paints the colour of the unique tile pixel that targets
the screen pixel. -/
theorem spriteCol_foldl_hit (ppu : NesPPU) (i x0 y0 px py : Nat) (ys : List Nat)
    (frame : Frame)
    (hmem : y0 ∈ ys)
    (hyinj : ∀ y ∈ ys, spriteTargetY ppu i y = py → y = y0)
    (hx0 : x0 < 8)
    (hv : spritePixelValue ppu i x0 y0 ≠ 0)
    (htx : spriteTargetX ppu i x0 = px) (hty : spriteTargetY ppu i y0 = py)
    (hpx : px < 256) (hpy : py < 240) :
    (ys.foldl (spriteDrawRow ppu i) frame).data px py =
      spritePixelColor ppu i x0 y0 := by
  induction ys generalizing frame with
  | nil => cases hmem
  | cons b bs ih =>
    rw [List.foldl_cons]
    by_cases hmem2 : y0 ∈ bs
    · exact ih _ hmem2 (fun y hy => hyinj y (List.mem_cons_of_mem b hy))
    · have hb : b = y0 := by
        rcases List.mem_cons.mp hmem with h | h
        · exact h.symm
        · exact absurd h hmem2
      subst hb
      rw [spriteCol_foldl_miss ppu i px py bs _ ?_]
      · unfold spriteDrawRow
        refine spriteRow_foldl_hit ppu i b x0 px py _ _ ?_ ?_ hv htx hty hpx hpy
        · rw [List.mem_reverse, List.mem_range]
          exact hx0
        · intro x hx hcontr
          rw [List.mem_reverse, List.mem_range] at hx
          exact spriteTargetX_inj ppu i x x0 hx hx0 (hcontr.trans htx.symm)
      · intro y hy hcontr
        exact hmem2 (hyinj y (List.mem_cons_of_mem b hy) hcontr ▸ hy)

/-- Drawing sprite `i` paints `spritePixelColor ppu i x0 y0` at the target of any of
its opaque, on-screen tile pixels `(x0, y0)`, regardless of the incoming frame. -/
theorem spriteIter_data_hit (ppu : NesPPU) (frame : Frame) (i x0 y0 px py : Nat)
    (hx0 : x0 < 8) (hy0 : y0 < 8)
    (hv : spritePixelValue ppu i x0 y0 ≠ 0)
    (htx : spriteTargetX ppu i x0 = px) (hty : spriteTargetY ppu i y0 = py)
    (hpx : px < 256) (hpy : py < 240) :
    (spriteIter ppu frame i).data px py = spritePixelColor ppu i x0 y0 := by
  unfold spriteIter
  refine spriteCol_foldl_hit ppu i x0 y0 px py _ frame ?_ ?_ hx0 hv htx hty hpx hpy
  · rw [List.mem_range]
    exact hy0
  · intro y hy hcontr
    rw [List.mem_range] at hy
    exact spriteTargetY_inj ppu i y y0 hy hy0 (hcontr.trans hty.symm)

set_option maxRecDepth 4096 in
/-- The OAM byte offsets visited by the sprite pass, `(0..256).step_by(4).rev()`,
end with offset 0: sprite 0 is drawn last. -/
theorem spriteListSplit :
    ((List.range 64).map (fun k => k * 4)).reverse =
      ((List.range 63).map (fun k => k * 4 + 4)).reverse ++ [0] := by
  decide

/-- C9: the sprite pass iterates OAM in reverse index order, so sprite 0 (OAM byte
offset 0) is drawn last; for any two sprites at OAM indices 0 and 1 whose opaque
pixels overlap at an on-screen position, the framebuffer pixel there holds sprite 0's
colour after `render` completes. -/
theorem claim_C9_sprite_priority (ppu : NesPPU) (frame : Frame)
    (x0 y0 x1 y1 px py : Nat)
    (hx0 : x0 < 8) (hy0 : y0 < 8)
    (hop0 : spritePixelValue ppu 0 x0 y0 ≠ 0)
    (htx : spriteTargetX ppu 0 x0 = px) (hty : spriteTargetY ppu 0 y0 = py)
    (hpx : px < 256) (hpy : py < 240)
    (hx1 : x1 < 8) (hy1 : y1 < 8)
    (hop1 : spritePixelValue ppu 4 x1 y1 ≠ 0)
    (ht1x : spriteTargetX ppu 4 x1 = px) (ht1y : spriteTargetY ppu 4 y1 = py) :
    (render ppu frame).data px py = spritePixelColor ppu 0 x0 y0 := by
  unfold render
  rw [spriteListSplit, List.foldl_append, List.foldl_cons, List.foldl_nil]
  exact spriteIter_data_hit ppu _ 0 x0 y0 px py hx0 hy0 hop0 htx hty hpx hpy

def spritePpu : NesPPU :=
  { chr_rom := fun _ => 0xFF,
    palette_table := fun j => j % 64,
    vram := fun _ => 0,
    oam_data := fun j =>
      if j = 0 then 10 else if j = 1 then 0 else if j = 2 then 0 else
      if j = 3 then 20 else if j = 4 then 10 else if j = 5 then 0 else
      if j = 6 then 1 else if j = 7 then 20 else 0,
    mirroring := .Vertical,
    ctrl := ⟨0⟩,
    scroll := ⟨0, 0, false⟩ }

def emptyFrame : Frame := { data := fun _ _ => (0, 0, 0) }

/-- C9 witness: two fully opaque sprites at OAM indices 0 and 1, both at screen
position (20, 10); after rendering, the overlap pixel holds sprite 0's colour
(palette 0, pattern value 3). -/
theorem claim_C9_witness :
    spritePixelValue spritePpu 0 0 0 ≠ 0 ∧
    spritePixelValue spritePpu 4 0 0 ≠ 0 ∧
    spriteTargetX spritePpu 0 0 = 20 ∧ spriteTargetY spritePpu 0 0 = 10 ∧
    spriteTargetX spritePpu 4 0 = 20 ∧ spriteTargetY spritePpu 4 0 = 10 ∧
    (render spritePpu emptyFrame).data 20 10 = spritePixelColor spritePpu 0 0 0 ∧
    spritePixelColor spritePpu 0 0 0 = (0x82, 0x37, 0xFA) :=
  ⟨by decide, by decide, by decide, by decide, by decide, by decide,
   claim_C9_sprite_priority spritePpu emptyFrame 0 0 0 0 20 10
     (by decide) (by decide) (by decide) (by decide) (by decide) (by decide)
     (by decide) (by decide) (by decide) (by decide) (by decide) (by decide),
   by decide⟩

end Nes
